import Mathlib

/-
Verification of the vhost-gpu-backend core against its specification.

The development shallowly embeds the two source modules:
  * `src/protocol.rs`  — wire codec: command decode, response encode;
  * `src/virtio_gpu.rs` — device state machine: resource table,
    scanout/cursor bindings, command entry points.

External collaborators (the rutabaga renderer adapter, the gpu_display
display adapter, and the vm-memory guest-memory layer) are third-party
crates, not part of this repository.  Following the spec's component
boundary (§2, §6), each call into them is modelled by an explicit
oracle: either a record of response functions (guest memory typed
reads, display queries) or an explicit call-result argument
(renderer-adapter results), so that every theorem quantifies over all
possible collaborator behaviours.  Machine integers are modelled as
`Nat`; the embedded code only moves them around, compares them with
constants, and serialises them to little-endian bytes (where `% 256`
appears explicitly).
-/

namespace VhostGpu

/-- Placeholder for the third-party `rutabaga_gfx::RutabagaError`.  The
device core only stores and propagates it, never inspects it. -/
structure RutabagaError where
  code : Nat
deriving DecidableEq

/-- Placeholder for the third-party `vm_memory::GuestMemoryError`.  Only
stored and propagated by the core. -/
structure GuestMemoryError where
  code : Nat
deriving DecidableEq

/-- Placeholder for `std::num::TryFromIntError`.  Only stored and
propagated by the core. -/
structure TryFromIntError where
  code : Nat
deriving DecidableEq

/- Protocol constants from `src/protocol.rs` lines 21-64. -/

def VIRTIO_GPU_CMD_GET_DISPLAY_INFO : Nat        := 0x0100
def VIRTIO_GPU_CMD_RESOURCE_CREATE_2D : Nat      := 0x0101
def VIRTIO_GPU_CMD_RESOURCE_UNREF : Nat          := 0x0102
def VIRTIO_GPU_CMD_SET_SCANOUT : Nat             := 0x0103
def VIRTIO_GPU_CMD_RESOURCE_FLUSH : Nat          := 0x0104
def VIRTIO_GPU_CMD_TRANSFER_TO_HOST_2D : Nat     := 0x0105
def VIRTIO_GPU_CMD_RESOURCE_ATTACH_BACKING : Nat := 0x0106
def VIRTIO_GPU_CMD_RESOURCE_DETACH_BACKING : Nat := 0x0107
def VIRTIO_GPU_CMD_GET_CAPSET_INFO : Nat         := 0x0108
def VIRTIO_GPU_CMD_GET_CAPSET : Nat              := 0x0109
def VIRTIO_GPU_CMD_GET_EDID : Nat                := 0x010a

def VIRTIO_GPU_CMD_CTX_CREATE : Nat              := 0x0200
def VIRTIO_GPU_CMD_CTX_DESTROY : Nat             := 0x0201
def VIRTIO_GPU_CMD_CTX_ATTACH_RESOURCE : Nat     := 0x0202
def VIRTIO_GPU_CMD_CTX_DETACH_RESOURCE : Nat     := 0x0203
def VIRTIO_GPU_CMD_RESOURCE_CREATE_3D : Nat      := 0x0204
def VIRTIO_GPU_CMD_TRANSFER_TO_HOST_3D : Nat     := 0x0205
def VIRTIO_GPU_CMD_TRANSFER_FROM_HOST_3D : Nat   := 0x0206
def VIRTIO_GPU_CMD_SUBMIT_3D : Nat               := 0x0207

def VIRTIO_GPU_CMD_UPDATE_CURSOR : Nat           := 0x0301
def VIRTIO_GPU_CMD_MOVE_CURSOR : Nat             := 0x0302

def VIRTIO_GPU_RESP_OK_NODATA : Nat              := 0x1100
def VIRTIO_GPU_RESP_OK_DISPLAY_INFO : Nat        := 0x1101
def VIRTIO_GPU_RESP_OK_CAPSET_INFO : Nat         := 0x1102
def VIRTIO_GPU_RESP_OK_CAPSET : Nat              := 0x1103
def VIRTIO_GPU_RESP_OK_EDID : Nat                := 0x1104
def VIRTIO_GPU_RESP_OK_RESOURCE_UUID : Nat       := 0x1105

def VIRTIO_GPU_RESP_ERR_UNSPEC : Nat             := 0x1200
def VIRTIO_GPU_RESP_ERR_OUT_OF_MEMORY : Nat      := 0x1201
def VIRTIO_GPU_RESP_ERR_INVALID_SCANOUT_ID : Nat := 0x1202
def VIRTIO_GPU_RESP_ERR_INVALID_RESOURCE_ID : Nat := 0x1203
def VIRTIO_GPU_RESP_ERR_INVALID_CONTEXT_ID : Nat := 0x1204
def VIRTIO_GPU_RESP_ERR_INVALID_PARAMETER : Nat  := 0x1205

def VIRTIO_GPU_MAX_SCANOUTS : Nat := 16

/- Command payload records from `src/protocol.rs`.  `Le32`/`Le64` fields
are modelled as `Nat`; `to_native()` is the identity in this model, and
endianness surfaces only in byte serialisation. -/

/-- `virtio_gpu_ctrl_hdr` (protocol.rs lines 83-89). -/
structure virtio_gpu_ctrl_hdr where
  type_    : Nat
  flags    : Nat
  fence_id : Nat
  ctx_id   : Nat
  padding  : Nat
deriving DecidableEq

/-- `virtio_gpu_cursor_pos` (protocol.rs lines 96-101). -/
structure virtio_gpu_cursor_pos where
  scanout_id : Nat
  x          : Nat
  y          : Nat
  padding    : Nat
deriving DecidableEq

/-- `virtio_gpu_update_cursor` (protocol.rs lines 108-114). -/
structure virtio_gpu_update_cursor where
  hdr         : virtio_gpu_ctrl_hdr
  pos         : virtio_gpu_cursor_pos
  resource_id : Nat
  hot_x       : Nat
  padding     : Nat
deriving DecidableEq

/-- `virtio_gpu_rect` (protocol.rs lines 122-127). -/
structure virtio_gpu_rect where
  x      : Nat
  y      : Nat
  width  : Nat
  height : Nat
deriving DecidableEq

/-- `virtio_gpu_resource_unref` (protocol.rs lines 134-138). -/
structure virtio_gpu_resource_unref where
  hdr         : virtio_gpu_ctrl_hdr
  resource_id : Nat
  padding     : Nat
deriving DecidableEq

/-- `virtio_gpu_resource_create_2d` (protocol.rs lines 145-151). -/
structure virtio_gpu_resource_create_2d where
  hdr         : virtio_gpu_ctrl_hdr
  resource_id : Nat
  format      : Nat
  width       : Nat
  height      : Nat
deriving DecidableEq

/-- `virtio_gpu_set_scanout` (protocol.rs lines 158-163). -/
structure virtio_gpu_set_scanout where
  hdr         : virtio_gpu_ctrl_hdr
  r           : virtio_gpu_rect
  scanout_id  : Nat
  resource_id : Nat
deriving DecidableEq

/-- `virtio_gpu_resource_flush` (protocol.rs lines 170-175). -/
structure virtio_gpu_resource_flush where
  hdr         : virtio_gpu_ctrl_hdr
  r           : virtio_gpu_rect
  resource_id : Nat
  padding     : Nat
deriving DecidableEq

/-- `virtio_gpu_transfer_to_host_2d` (protocol.rs lines 182-188). -/
structure virtio_gpu_transfer_to_host_2d where
  hdr         : virtio_gpu_ctrl_hdr
  r           : virtio_gpu_rect
  offset      : Nat
  resource_id : Nat
  padding     : Nat
deriving DecidableEq

/-- `virtio_gpu_mem_entry` (protocol.rs lines 194-198). -/
structure virtio_gpu_mem_entry where
  addr    : Nat
  length  : Nat
  padding : Nat
deriving DecidableEq

/-- `virtio_gpu_resource_attach_backing` (protocol.rs lines 205-209). -/
structure virtio_gpu_resource_attach_backing where
  hdr         : virtio_gpu_ctrl_hdr
  resource_id : Nat
  nr_entries  : Nat
deriving DecidableEq

/-- `virtio_gpu_resource_detach_backing` (protocol.rs lines 216-220). -/
structure virtio_gpu_resource_detach_backing where
  hdr         : virtio_gpu_ctrl_hdr
  resource_id : Nat
  padding     : Nat
deriving DecidableEq

/-- `virtio_gpu_display_one` (protocol.rs lines 226-230). -/
structure virtio_gpu_display_one where
  r       : virtio_gpu_rect
  enabled : Nat
  flags   : Nat
deriving DecidableEq

/-- `virtio_gpu_box` (protocol.rs lines 248-255). -/
structure virtio_gpu_box where
  x : Nat
  y : Nat
  z : Nat
  w : Nat
  h : Nat
  d : Nat
deriving DecidableEq

/-- `virtio_gpu_transfer_host_3d` (protocol.rs lines 262-270). -/
structure virtio_gpu_transfer_host_3d where
  hdr          : virtio_gpu_ctrl_hdr
  box_         : virtio_gpu_box
  offset       : Nat
  resource_id  : Nat
  level        : Nat
  stride       : Nat
  layer_stride : Nat
deriving DecidableEq

/-- `virtio_gpu_resource_create_3d` (protocol.rs lines 278-292). -/
structure virtio_gpu_resource_create_3d where
  hdr         : virtio_gpu_ctrl_hdr
  resource_id : Nat
  target      : Nat
  format      : Nat
  bind        : Nat
  width       : Nat
  height      : Nat
  depth       : Nat
  array_size  : Nat
  last_level  : Nat
  nr_samples  : Nat
  flags       : Nat
  padding     : Nat
deriving DecidableEq

/-- `virtio_gpu_ctx_create` (protocol.rs lines 299-304); the 64-byte
`debug_name` array is a byte list. -/
structure virtio_gpu_ctx_create where
  hdr        : virtio_gpu_ctrl_hdr
  nlen       : Nat
  padding    : Nat
  debug_name : List Nat
deriving DecidableEq

/-- `virtio_gpu_ctx_destroy` (protocol.rs lines 339-341). -/
structure virtio_gpu_ctx_destroy where
  hdr : virtio_gpu_ctrl_hdr
deriving DecidableEq

/-- `virtio_gpu_ctx_resource` (protocol.rs lines 348-352). -/
structure virtio_gpu_ctx_resource where
  hdr         : virtio_gpu_ctrl_hdr
  resource_id : Nat
  padding     : Nat
deriving DecidableEq

/-- `virtio_gpu_cmd_submit` (protocol.rs lines 359-363). -/
structure virtio_gpu_cmd_submit where
  hdr     : virtio_gpu_ctrl_hdr
  size    : Nat
  padding : Nat
deriving DecidableEq

/-- `virtio_gpu_get_capset_info` (protocol.rs lines 373-377). -/
structure virtio_gpu_get_capset_info where
  hdr          : virtio_gpu_ctrl_hdr
  capset_index : Nat
  padding      : Nat
deriving DecidableEq

/-- `virtio_gpu_get_capset` (protocol.rs lines 397-401). -/
structure virtio_gpu_get_capset where
  hdr            : virtio_gpu_ctrl_hdr
  capset_id      : Nat
  capset_version : Nat
deriving DecidableEq

/-- `virtio_gpu_cmd_get_edid` (protocol.rs lines 418-422). -/
structure virtio_gpu_cmd_get_edid where
  hdr     : virtio_gpu_ctrl_hdr
  scanout : Nat
  padding : Nat
deriving DecidableEq

/-- `VirtioGpuCommandDecodeError` (protocol.rs lines 489-492). -/
inductive VirtioGpuCommandDecodeError where
  | InvalidCommand (type_ : Nat)
  | ParserError (e : GuestMemoryError)
deriving DecidableEq

/-- `VirtioGpuCommand` (protocol.rs lines 502-531). -/
inductive VirtioGpuCommand where
  | CmdGetDisplayInfo (c : virtio_gpu_ctrl_hdr)
  | CmdResourceCreate2D (c : virtio_gpu_resource_create_2d)
  | CmdResourceUnref (c : virtio_gpu_resource_unref)
  | CmdSetScanout (c : virtio_gpu_set_scanout)
  | CmdResourceFlush (c : virtio_gpu_resource_flush)
  | CmdTransferToHost2D (c : virtio_gpu_transfer_to_host_2d)
  | CmdResourceAttachBacking (c : virtio_gpu_resource_attach_backing)
  | CmdResourceDetachBacking (c : virtio_gpu_resource_detach_backing)
  | CmdGetCapsetInfo (c : virtio_gpu_get_capset_info)
  | CmdGetCapset (c : virtio_gpu_get_capset)
  | CmdGetEdid (c : virtio_gpu_cmd_get_edid)
  | CmdCtxCreate (c : virtio_gpu_ctx_create)
  | CmdCtxDestroy (c : virtio_gpu_ctx_destroy)
  | CmdCtxAttachResource (c : virtio_gpu_ctx_resource)
  | CmdCtxDetachResource (c : virtio_gpu_ctx_resource)
  | CmdResourceCreate3D (c : virtio_gpu_resource_create_3d)
  | CmdTransferToHost3D (c : virtio_gpu_transfer_host_3d)
  | CmdTransferFromHost3D (c : virtio_gpu_transfer_host_3d)
  | CmdSubmit3D (c : virtio_gpu_cmd_submit)
  | CmdUpdateCursor (c : virtio_gpu_update_cursor)
  | CmdMoveCursor (c : virtio_gpu_update_cursor)
deriving DecidableEq

/-- Oracle for the external guest-memory layer's typed-read contract
(spec §6: `readTyped<T>(address) -> T | MemoryFault`).  One reader per
payload record type read by `VirtioGpuCommand::decode` via
`read_obj::<T>(addr)`. -/
structure GuestMem where
  read_ctrl_hdr : Nat → Except GuestMemoryError virtio_gpu_ctrl_hdr
  read_resource_create_2d : Nat → Except GuestMemoryError virtio_gpu_resource_create_2d
  read_resource_unref : Nat → Except GuestMemoryError virtio_gpu_resource_unref
  read_transfer_to_host_2d : Nat → Except GuestMemoryError virtio_gpu_transfer_to_host_2d
  read_set_scanout : Nat → Except GuestMemoryError virtio_gpu_set_scanout
  read_resource_flush : Nat → Except GuestMemoryError virtio_gpu_resource_flush
  read_attach_backing : Nat → Except GuestMemoryError virtio_gpu_resource_attach_backing
  read_detach_backing : Nat → Except GuestMemoryError virtio_gpu_resource_detach_backing
  read_get_capset_info : Nat → Except GuestMemoryError virtio_gpu_get_capset_info
  read_get_capset : Nat → Except GuestMemoryError virtio_gpu_get_capset
  read_get_edid : Nat → Except GuestMemoryError virtio_gpu_cmd_get_edid
  read_ctx_create : Nat → Except GuestMemoryError virtio_gpu_ctx_create
  read_ctx_destroy : Nat → Except GuestMemoryError virtio_gpu_ctx_destroy
  read_ctx_resource : Nat → Except GuestMemoryError virtio_gpu_ctx_resource
  read_resource_create_3d : Nat → Except GuestMemoryError virtio_gpu_resource_create_3d
  read_transfer_host_3d : Nat → Except GuestMemoryError virtio_gpu_transfer_host_3d
  read_cmd_submit : Nat → Except GuestMemoryError virtio_gpu_cmd_submit
  read_update_cursor : Nat → Except GuestMemoryError virtio_gpu_update_cursor

/-- Helper mirroring `CmdX(cmd.read_obj(addr)?)`: a failed read becomes
`ParserError` (via the `From<GuestMemoryError>` impl, protocol.rs
lines 494-498), a successful one is wrapped in the command variant. -/
def wrapRead {α : Type} (f : α → VirtioGpuCommand)
    (r : Except GuestMemoryError α) :
    Except VirtioGpuCommandDecodeError VirtioGpuCommand :=
  match r with
  | .error e => .error (.ParserError e)
  | .ok x => .ok (f x)

/-- `VirtioGpuCommand::decode` (protocol.rs lines 563-596): read the
control header at `addr`, dispatch on its `type_` to re-read the full
payload record at the same address; an unrecognised opcode is
`InvalidCommand(type_)`. -/
def VirtioGpuCommand.decode (cmd : GuestMem) (addr : Nat) :
    Except VirtioGpuCommandDecodeError VirtioGpuCommand :=
  match cmd.read_ctrl_hdr addr with
  | .error e => .error (.ParserError e)
  | .ok hdr =>
    if hdr.type_ = VIRTIO_GPU_CMD_GET_DISPLAY_INFO then
      wrapRead .CmdGetDisplayInfo (cmd.read_ctrl_hdr addr)
    else if hdr.type_ = VIRTIO_GPU_CMD_RESOURCE_CREATE_2D then
      wrapRead .CmdResourceCreate2D (cmd.read_resource_create_2d addr)
    else if hdr.type_ = VIRTIO_GPU_CMD_RESOURCE_UNREF then
      wrapRead .CmdResourceUnref (cmd.read_resource_unref addr)
    else if hdr.type_ = VIRTIO_GPU_CMD_TRANSFER_TO_HOST_2D then
      wrapRead .CmdTransferToHost2D (cmd.read_transfer_to_host_2d addr)
    else if hdr.type_ = VIRTIO_GPU_CMD_SET_SCANOUT then
      wrapRead .CmdSetScanout (cmd.read_set_scanout addr)
    else if hdr.type_ = VIRTIO_GPU_CMD_RESOURCE_FLUSH then
      wrapRead .CmdResourceFlush (cmd.read_resource_flush addr)
    else if hdr.type_ = VIRTIO_GPU_CMD_RESOURCE_ATTACH_BACKING then
      wrapRead .CmdResourceAttachBacking (cmd.read_attach_backing addr)
    else if hdr.type_ = VIRTIO_GPU_CMD_RESOURCE_DETACH_BACKING then
      wrapRead .CmdResourceDetachBacking (cmd.read_detach_backing addr)
    else if hdr.type_ = VIRTIO_GPU_CMD_GET_CAPSET_INFO then
      wrapRead .CmdGetCapsetInfo (cmd.read_get_capset_info addr)
    else if hdr.type_ = VIRTIO_GPU_CMD_GET_CAPSET then
      wrapRead .CmdGetCapset (cmd.read_get_capset addr)
    else if hdr.type_ = VIRTIO_GPU_CMD_GET_EDID then
      wrapRead .CmdGetEdid (cmd.read_get_edid addr)
    else if hdr.type_ = VIRTIO_GPU_CMD_CTX_CREATE then
      wrapRead .CmdCtxCreate (cmd.read_ctx_create addr)
    else if hdr.type_ = VIRTIO_GPU_CMD_CTX_DESTROY then
      wrapRead .CmdCtxDestroy (cmd.read_ctx_destroy addr)
    else if hdr.type_ = VIRTIO_GPU_CMD_CTX_ATTACH_RESOURCE then
      wrapRead .CmdCtxAttachResource (cmd.read_ctx_resource addr)
    else if hdr.type_ = VIRTIO_GPU_CMD_CTX_DETACH_RESOURCE then
      wrapRead .CmdCtxDetachResource (cmd.read_ctx_resource addr)
    else if hdr.type_ = VIRTIO_GPU_CMD_RESOURCE_CREATE_3D then
      wrapRead .CmdResourceCreate3D (cmd.read_resource_create_3d addr)
    else if hdr.type_ = VIRTIO_GPU_CMD_TRANSFER_TO_HOST_3D then
      wrapRead .CmdTransferToHost3D (cmd.read_transfer_host_3d addr)
    else if hdr.type_ = VIRTIO_GPU_CMD_TRANSFER_FROM_HOST_3D then
      wrapRead .CmdTransferFromHost3D (cmd.read_transfer_host_3d addr)
    else if hdr.type_ = VIRTIO_GPU_CMD_SUBMIT_3D then
      wrapRead .CmdSubmit3D (cmd.read_cmd_submit addr)
    else if hdr.type_ = VIRTIO_GPU_CMD_UPDATE_CURSOR then
      wrapRead .CmdUpdateCursor (cmd.read_update_cursor addr)
    else if hdr.type_ = VIRTIO_GPU_CMD_MOVE_CURSOR then
      wrapRead .CmdMoveCursor (cmd.read_update_cursor addr)
    else
      .error (.InvalidCommand hdr.type_)

/-- The set of opcodes `decode` recognises (the 21 match arms of
protocol.rs lines 570-592), as a boolean predicate. -/
def isKnownOpcode (t : Nat) : Bool :=
  t == VIRTIO_GPU_CMD_GET_DISPLAY_INFO ||
  t == VIRTIO_GPU_CMD_RESOURCE_CREATE_2D ||
  t == VIRTIO_GPU_CMD_RESOURCE_UNREF ||
  t == VIRTIO_GPU_CMD_TRANSFER_TO_HOST_2D ||
  t == VIRTIO_GPU_CMD_SET_SCANOUT ||
  t == VIRTIO_GPU_CMD_RESOURCE_FLUSH ||
  t == VIRTIO_GPU_CMD_RESOURCE_ATTACH_BACKING ||
  t == VIRTIO_GPU_CMD_RESOURCE_DETACH_BACKING ||
  t == VIRTIO_GPU_CMD_GET_CAPSET_INFO ||
  t == VIRTIO_GPU_CMD_GET_CAPSET ||
  t == VIRTIO_GPU_CMD_GET_EDID ||
  t == VIRTIO_GPU_CMD_CTX_CREATE ||
  t == VIRTIO_GPU_CMD_CTX_DESTROY ||
  t == VIRTIO_GPU_CMD_CTX_ATTACH_RESOURCE ||
  t == VIRTIO_GPU_CMD_CTX_DETACH_RESOURCE ||
  t == VIRTIO_GPU_CMD_RESOURCE_CREATE_3D ||
  t == VIRTIO_GPU_CMD_TRANSFER_TO_HOST_3D ||
  t == VIRTIO_GPU_CMD_TRANSFER_FROM_HOST_3D ||
  t == VIRTIO_GPU_CMD_SUBMIT_3D ||
  t == VIRTIO_GPU_CMD_UPDATE_CURSOR ||
  t == VIRTIO_GPU_CMD_MOVE_CURSOR

/-- `VirtioGpuResponse` (protocol.rs lines 621-648).  Success variants
carry typed payloads; the six protocol error variants mirror the wire
error codes; the remaining variants are library-internal failures. -/
inductive VirtioGpuResponse where
  | OkNoData
  | OkDisplayInfo (displays : List (Nat × Nat))
  | OkCapsetInfo (capset_id version size : Nat)
  | OkCapset (data : List Nat)
  | OkResourceUuid (uuid : List Nat)
  | ErrUnspec
  | ErrOutOfMemory
  | ErrInvalidScanoutId
  | ErrInvalidResourceId
  | ErrInvalidContextId
  | ErrInvalidParameter
  | TooManyScanout (n : Nat)
  | EncodeError (e : GuestMemoryError)
  | RutabagaError (e : VhostGpu.RutabagaError)
  | UnsupportPlatform (e : TryFromIntError)
  | InvalidSglistRegion
deriving DecidableEq

/-- `VirtioGpuResponseResult` (protocol.rs line 599): both the success
and the failure channel carry a `VirtioGpuResponse`. -/
abbrev VirtioGpuResponseResult : Type :=
  Except VirtioGpuResponse VirtioGpuResponse

/-- `VirtioGpuResponse::get_resp_command_const` (protocol.rs lines
717-733): the response→opcode mapping; every internal variant falls to
the catch-all `VIRTIO_GPU_RESP_ERR_UNSPEC` arm. -/
def VirtioGpuResponse.get_resp_command_const : VirtioGpuResponse → Nat
  | .OkNoData             => VIRTIO_GPU_RESP_OK_NODATA
  | .OkDisplayInfo _      => VIRTIO_GPU_RESP_OK_DISPLAY_INFO
  | .OkCapsetInfo _ _ _   => VIRTIO_GPU_RESP_OK_CAPSET_INFO
  | .OkCapset _           => VIRTIO_GPU_RESP_OK_CAPSET
  | .OkResourceUuid _     => VIRTIO_GPU_RESP_OK_RESOURCE_UUID
  | .ErrUnspec            => VIRTIO_GPU_RESP_ERR_UNSPEC
  | .ErrOutOfMemory       => VIRTIO_GPU_RESP_ERR_OUT_OF_MEMORY
  | .ErrInvalidScanoutId  => VIRTIO_GPU_RESP_ERR_INVALID_SCANOUT_ID
  | .ErrInvalidResourceId => VIRTIO_GPU_RESP_ERR_INVALID_RESOURCE_ID
  | .ErrInvalidContextId  => VIRTIO_GPU_RESP_ERR_INVALID_CONTEXT_ID
  | .ErrInvalidParameter  => VIRTIO_GPU_RESP_ERR_INVALID_PARAMETER
  | _                     => VIRTIO_GPU_RESP_ERR_UNSPEC

/-- Little-endian serialisation of a `Le32` value (vm-memory's
`Le32::from` + `ByteValued::as_slice`): four bytes, least significant
first. -/
def le32 (n : Nat) : List Nat :=
  [n % 256, n / 256 % 256, n / 65536 % 256, n / 16777216 % 256]

/-- Little-endian serialisation of a `Le64` value: eight bytes, least
significant first. -/
def le64 (n : Nat) : List Nat :=
  [n % 256, n / 256 % 256, n / 65536 % 256, n / 16777216 % 256,
   n / 4294967296 % 256, n / 1099511627776 % 256,
   n / 281474976710656 % 256, n / 72057594037927936 % 256]

/-- Byte layout of `virtio_gpu_ctrl_hdr` (`#[repr(C)]`, 24 bytes:
type, flags, fence_id, ctx_id, padding). -/
def ctrlHdrBytes (h : virtio_gpu_ctrl_hdr) : List Nat :=
  le32 h.type_ ++ le32 h.flags ++ le64 h.fence_id ++
  le32 h.ctx_id ++ le32 h.padding

/-- Byte layout of `virtio_gpu_display_one` (`#[repr(C)]`, 24 bytes:
rect x,y,width,height then enabled, flags). -/
def displayOneBytes (p : virtio_gpu_display_one) : List Nat :=
  le32 p.r.x ++ le32 p.r.y ++ le32 p.r.width ++ le32 p.r.height ++
  le32 p.enabled ++ le32 p.flags

/-- Rust `Default::default()` for `virtio_gpu_display_one`: all fields
zero. -/
def displayOneDefault : virtio_gpu_display_one :=
  { r := { x := 0, y := 0, width := 0, height := 0 }, enabled := 0, flags := 0 }

/-- The `pmodes` array of `virtio_gpu_resp_display_info` after the
`iter_mut().zip(inner)` loop of protocol.rs lines 675-680: the first
`inner.length` records get `width`/`height` from `inner` and
`enabled = 1` (x, y, flags stay at their zeroed defaults); the
remaining records keep `Default::default()`.  Equals the loop's result
whenever `inner.length ≤ 16`, which the caller's guard ensures. -/
def setPmodes (inner : List (Nat × Nat)) : List virtio_gpu_display_one :=
  (inner.map fun wh =>
    { r := { x := 0, y := 0, width := wh.1, height := wh.2 },
      enabled := 1, flags := 0 }) ++
  List.replicate (VIRTIO_GPU_MAX_SCANOUTS - inner.length) displayOneDefault

/-- `VirtioGpuResponse::encode` (protocol.rs lines 652-715): build the
response header from `get_resp_command_const`, then serialise the
variant's body after it.  `OkDisplayInfo` rejects more than
`VIRTIO_GPU_MAX_SCANOUTS` entries with `TooManyScanout` before
producing any bytes; all variants without a dedicated arm are
header-only. -/
def VirtioGpuResponse.encode (resp : VirtioGpuResponse)
    (flags : Nat) (fence_id : Nat) (ctx_id : Nat) :
    Except VirtioGpuResponse (List Nat) :=
  let hdr : virtio_gpu_ctrl_hdr :=
    { type_ := resp.get_resp_command_const, flags := flags,
      fence_id := fence_id, ctx_id := ctx_id, padding := 0 }
  match resp with
  | .OkDisplayInfo inner =>
    if inner.length > VIRTIO_GPU_MAX_SCANOUTS then
      .error (.TooManyScanout inner.length)
    else
      .ok (ctrlHdrBytes hdr ++ ((setPmodes inner).map displayOneBytes).flatten)
  | .OkCapsetInfo capset_id version size =>
    .ok (ctrlHdrBytes hdr ++ le32 capset_id ++ le32 version ++
         le32 size ++ le32 0)
  | .OkCapset data =>
    .ok (ctrlHdrBytes hdr ++ data)
  | .OkResourceUuid uuid =>
    .ok (ctrlHdrBytes hdr ++ uuid)
  | _ =>
    .ok (ctrlHdrBytes hdr)

/- Device state machine from `src/virtio_gpu.rs`. -/

/-- `VirtioGpuResource` (virtio_gpu.rs lines 50-55). -/
structure VirtioGpuResource where
  resource_id : Nat
  width       : Nat
  height      : Nat
  size        : Nat
deriving DecidableEq

/-- `VirtioGpuResource::new` (virtio_gpu.rs lines 60-67). -/
def VirtioGpuResource.new (resource_id width height : Nat) (size : Nat) :
    VirtioGpuResource :=
  { resource_id := resource_id, width := width, height := height, size := size }

/-- The `resources: BTreeMap<u32, VirtioGpuResource>` field, modelled
as an association list with unique keys.  The operations below give
the `BTreeMap` lookup/insert/remove semantics extensionally. -/
abbrev ResourceMap : Type :=
  List (Nat × VirtioGpuResource)

/-- `BTreeMap::get` — the value stored at key `k`, if any. -/
def mapGet (m : ResourceMap) (k : Nat) : Option VirtioGpuResource :=
  (List.find? (fun kv => kv.1 == k) m).map (fun kv => kv.2)

/-- Drop every entry at key `k`; a `BTreeMap` holds at most one. -/
def mapErase (m : ResourceMap) (k : Nat) : ResourceMap :=
  List.filter (fun kv => !(kv.1 == k)) m

/-- `BTreeMap::insert k v` — `v` replaces any previous entry at `k`. -/
def mapInsert (m : ResourceMap) (k : Nat) (v : VirtioGpuResource) :
    ResourceMap :=
  (k, v) :: mapErase m k

/-- `BTreeMap::contains_key`. -/
def mapContains (m : ResourceMap) (k : Nat) : Bool :=
  (mapGet m k).isSome

/-- `NonZeroU32::new`: `none` exactly when the argument is zero. -/
def nonZeroU32New (n : Nat) : Option Nat :=
  if n = 0 then none else some n

/-- The state fields of `VirtioGpu` (virtio_gpu.rs lines 75-85).  The
`display` and `rutabaga` handles are external adapters; their calls
are modelled by oracles, so only the pure state is kept here. -/
structure VirtioGpu where
  display_width       : Nat
  display_height      : Nat
  scanout_resource_id : Option Nat
  scanout_surface_id  : Option Nat
  cursor_resource_id  : Option Nat
  cursor_surface_id   : Option Nat
  resources           : ResourceMap
deriving DecidableEq

/-- `rutabaga_gfx::ResourceCreate3D` request record (as filled in by
`cmd_resource_create_2d` / `cmd_resource_create_3d`). -/
structure ResourceCreate3D where
  target     : Nat
  format     : Nat
  bind       : Nat
  width      : Nat
  height     : Nat
  depth      : Nat
  array_size : Nat
  last_level : Nat
  nr_samples : Nat
  flags      : Nat
deriving DecidableEq

/-- `RUTABAGA_PIPE_TEXTURE_2D` (rutabaga_gfx constant, value 2). -/
def RUTABAGA_PIPE_TEXTURE_2D : Nat := 2

/-- `RUTABAGA_PIPE_BIND_RENDER_TARGET` (rutabaga_gfx constant, value 2). -/
def RUTABAGA_PIPE_BIND_RENDER_TARGET : Nat := 2

/-- Outcome of a single renderer-adapter (rutabaga) call.  The adapter
is external, so each embedded entry point takes the outcome of the
call(s) it makes as an explicit argument. -/
abbrev RutabagaCall : Type :=
  Except RutabagaError Unit

/-- `VirtioGpu::resource_create_3d` (virtio_gpu.rs lines 174-191):
propagate a failed adapter create; otherwise insert the local record,
then return `Ok(ErrInvalidResourceId)` when the post-creation
`rutabaga.query(resource_id)` SUCCEEDS and `Ok(OkNoData)` when it
fails.  `createRes` and `queryRes` are the outcomes of the adapter's
`resource_create_3d` and `query` calls on the same `resource_id`. -/
def VirtioGpu.resource_create_3d (s : VirtioGpu)
    (createRes : RutabagaCall) (queryRes : RutabagaCall)
    (resource_id : Nat) (rc : ResourceCreate3D) :
    VirtioGpu × VirtioGpuResponseResult :=
  match createRes with
  | .error e => (s, .error (.RutabagaError e))
  | .ok _ =>
    let resource := VirtioGpuResource.new resource_id rc.width rc.height 0
    let s' := { s with resources := mapInsert s.resources resource_id resource }
    match queryRes with
    | .ok _ => (s', .ok .ErrInvalidResourceId)
    | .error _ => (s', .ok .OkNoData)

/-- `VirtioGpu::cmd_resource_create_2d` (virtio_gpu.rs lines 197-211). -/
def VirtioGpu.cmd_resource_create_2d (s : VirtioGpu)
    (createRes : RutabagaCall) (queryRes : RutabagaCall)
    (cmd : virtio_gpu_resource_create_2d) :
    VirtioGpu × VirtioGpuResponseResult :=
  let rc : ResourceCreate3D :=
    { target := RUTABAGA_PIPE_TEXTURE_2D, format := cmd.format,
      bind := RUTABAGA_PIPE_BIND_RENDER_TARGET,
      width := cmd.width, height := cmd.height,
      depth := 1, array_size := 1, last_level := 0,
      nr_samples := 0, flags := 0 }
  s.resource_create_3d createRes queryRes cmd.resource_id rc

/-- `VirtioGpu::cmd_resource_create_3d` (virtio_gpu.rs lines 213-227). -/
def VirtioGpu.cmd_resource_create_3d (s : VirtioGpu)
    (createRes : RutabagaCall) (queryRes : RutabagaCall)
    (cmd : virtio_gpu_resource_create_3d) :
    VirtioGpu × VirtioGpuResponseResult :=
  let rc : ResourceCreate3D :=
    { target := cmd.target, format := cmd.format, bind := cmd.bind,
      width := cmd.width, height := cmd.height, depth := cmd.depth,
      array_size := cmd.array_size, last_level := cmd.last_level,
      nr_samples := cmd.nr_samples, flags := cmd.flags }
  s.resource_create_3d createRes queryRes cmd.resource_id rc

/-- `VirtioGpu::cmd_resource_unref` (virtio_gpu.rs lines 229-235):
first the adapter `unref_resource` call (`unrefRes` is its outcome; a
failure propagates), then `resources.remove(id).ok_or(ErrInvalidResourceId)`
— removing an absent key leaves the map unchanged and fails. -/
def VirtioGpu.cmd_resource_unref (s : VirtioGpu)
    (unrefRes : RutabagaCall) (cmd : virtio_gpu_resource_unref) :
    VirtioGpu × VirtioGpuResponseResult :=
  match unrefRes with
  | .error e => (s, .error (.RutabagaError e))
  | .ok _ =>
    match mapGet s.resources cmd.resource_id with
    | none => (s, .error .ErrInvalidResourceId)
    | some _ =>
      ({ s with resources := mapErase s.resources cmd.resource_id },
       .ok .OkNoData)

/-- `VirtioGpu::cmd_set_scanout` (virtio_gpu.rs lines 365-387):
`resource_id == 0` clears both scanout bindings; otherwise the
resource must exist locally, the scanout resource binding is set, and
the surface binding is set only if none exists yet. -/
def VirtioGpu.cmd_set_scanout (s : VirtioGpu)
    (cmd : virtio_gpu_set_scanout) :
    VirtioGpu × VirtioGpuResponseResult :=
  let resource_id := cmd.resource_id
  if resource_id = 0 then
    ({ s with scanout_surface_id := none, scanout_resource_id := none },
     .ok .OkNoData)
  else
    match mapGet s.resources cmd.resource_id with
    | none => (s, .error .ErrInvalidResourceId)
    | some _ =>
      let s' := { s with scanout_resource_id := nonZeroU32New resource_id }
      let s'' :=
        if s'.scanout_surface_id.isNone then
          { s' with scanout_surface_id := some cmd.scanout_id }
        else s'
      (s'', .ok .OkNoData)

/-- Oracle for the external display adapter (`gpu_display`) queries
made on the flush path. -/
structure DisplayOracle where
  nextBufferInUse : Nat → Bool
  framebufferRegionStride : Nat → Nat → Nat → Nat → Nat → Option Nat

/-- Renderer/display calls that move pixels, recorded so that theorems
can state that a path performs no transfer or page flip. -/
inductive GpuEvent where
  | transferRead (resource_id : Nat)
  | flip (surface_id : Nat)
  | flipTo (surface_id import_id : Nat)
deriving DecidableEq

/-- `VirtioGpu::import_to_display` (virtio_gpu.rs line 361): this
backend never imports, it always returns `None`. -/
def VirtioGpu.import_to_display (_s : VirtioGpu) (_resource_id : Nat) :
    Option Nat :=
  none

/-- `VirtioGpu::flush_resource_to_surface` (virtio_gpu.rs lines
301-333): try the import fast path (never available here); else the
resource must exist locally; else skip the copy when the surface's
next buffer is still in use; else obtain the framebuffer region (its
stride feeds the transfer), run the adapter `transfer_read`
(`transferRes` is its outcome) and flip.  The returned event list
records the transfer/flip calls performed. -/
def VirtioGpu.flush_resource_to_surface (s : VirtioGpu)
    (d : DisplayOracle) (transferRes : RutabagaCall)
    (resource_id surface_id : Nat) :
    VirtioGpuResponseResult × List GpuEvent :=
  match s.import_to_display resource_id with
  | some import_id => (.ok .OkNoData, [.flipTo surface_id import_id])
  | none =>
    if !(mapContains s.resources resource_id) then
      (.error .ErrInvalidResourceId, [])
    else if d.nextBufferInUse surface_id then
      (.ok .OkNoData, [])
    else
      match d.framebufferRegionStride surface_id 0 0
              s.display_width s.display_height with
      | none => (.error .ErrUnspec, [])
      | some _stride =>
        match transferRes with
        | .error e => (.error (.RutabagaError e), [.transferRead resource_id])
        | .ok _ => (.ok .OkNoData, [.transferRead resource_id, .flip surface_id])

/-- `VirtioGpu::cmd_flush_resource` (virtio_gpu.rs lines 337-360):
`resource_id == 0` is an immediate success; otherwise flush to the
scanout surface when the scanout binding matches the id, then to the
cursor surface when the cursor binding matches, propagating the first
failure.  `scanTransferRes` / `cursorTransferRes` are the outcomes of
the two potential `transfer_read` calls. -/
def VirtioGpu.cmd_flush_resource (s : VirtioGpu) (d : DisplayOracle)
    (scanTransferRes cursorTransferRes : RutabagaCall)
    (cmd : virtio_gpu_resource_flush) :
    VirtioGpu × VirtioGpuResponseResult × List GpuEvent :=
  let resource_id := cmd.resource_id
  if resource_id = 0 then
    (s, .ok .OkNoData, [])
  else
    let scanStep : VirtioGpuResponseResult × List GpuEvent :=
      match s.scanout_resource_id, s.scanout_surface_id with
      | some scanout_resource_id, some scanout_surface_id =>
        if scanout_resource_id = cmd.resource_id then
          s.flush_resource_to_surface d scanTransferRes resource_id
            scanout_surface_id
        else (.ok .OkNoData, [])
      | _, _ => (.ok .OkNoData, [])
    match scanStep with
    | (.error e, evs) => (s, .error e, evs)
    | (.ok _, evs1) =>
      let cursorStep : VirtioGpuResponseResult × List GpuEvent :=
        match s.cursor_resource_id, s.cursor_surface_id with
        | some cursor_resource_id, some cursor_surface_id =>
          if cursor_resource_id = resource_id then
            s.flush_resource_to_surface d cursorTransferRes resource_id
              cursor_surface_id
          else (.ok .OkNoData, [])
        | _, _ => (.ok .OkNoData, [])
      match cursorStep with
      | (.error e, evs2) => (s, .error e, evs1 ++ evs2)
      | (.ok _, evs2) => (s, .ok .OkNoData, evs1 ++ evs2)

/-- `RutabagaIovec` (rutabaga_gfx): a host base address plus length. -/
structure RutabagaIovec where
  base : Nat
  len  : Nat
deriving DecidableEq

/-- Oracle for the guest-memory layer's scatter-gather contract used
by `sglist_to_rutabaga_iovecs`: whether `get_slice(addr, len)`
succeeds, and the host address `get_host_address(addr)` resolves to. -/
structure SgMem where
  get_slice_ok     : Nat → Nat → Bool
  get_host_address : Nat → Nat

/-- `sglist_to_rutabaga_iovecs` (virtio_gpu.rs lines 87-106): if any
span fails `get_slice` validation the whole translation fails with
`InvalidSglistRegion` and no iovec list is produced; otherwise each
span becomes one iovec (host address, length), in order. -/
def sglist_to_rutabaga_iovecs (vecs : List (Nat × Nat)) (mem : SgMem) :
    Except VirtioGpuResponse (List RutabagaIovec) :=
  if vecs.any (fun al => !(mem.get_slice_ok al.1 al.2)) then
    .error .InvalidSglistRegion
  else
    .ok (vecs.map fun al =>
      { base := mem.get_host_address al.1, len := al.2 })

/- Helper lemmas about the resource-map operations. -/

theorem mapGet_mapErase_self (m : ResourceMap) (k : Nat) :
    mapGet (mapErase m k) k = none := by
  induction m with
  | nil => rfl
  | cons kv tl ih =>
    by_cases h : kv.1 = k
    · have h1 : mapErase (kv :: tl) k = mapErase tl k := by
        simp [mapErase, List.filter_cons, h]
      rw [h1]; exact ih
    · have h1 : mapErase (kv :: tl) k = kv :: mapErase tl k := by
        simp [mapErase, List.filter_cons, h]
      rw [h1]
      have hb : (kv.1 == k) = false := by simp [h]
      have h2 : mapGet (kv :: mapErase tl k) k = mapGet (mapErase tl k) k := by
        simp [mapGet, List.find?, hb]
      rw [h2]; exact ih

theorem mapGet_mapInsert_self (m : ResourceMap) (k : Nat)
    (v : VirtioGpuResource) :
    mapGet (mapInsert m k v) k = some v := by
  simp [mapInsert, mapGet, List.find?]

/- Concrete states and commands used by the example theorems. -/

/-- An all-zero control header. -/
def hdr0 : virtio_gpu_ctrl_hdr :=
  { type_ := 0, flags := 0, fence_id := 0, ctx_id := 0, padding := 0 }

/-- The state `VirtioGpu::new` produces with the default parameters:
no bindings, empty resource table, 1920x1080 display. -/
def gpu0 : VirtioGpu :=
  { display_width := 1920, display_height := 1080,
    scanout_resource_id := none, scanout_surface_id := none,
    cursor_resource_id := none, cursor_surface_id := none,
    resources := [] }

/-- A create-2D command for resource id 7. -/
def c2dEx : virtio_gpu_resource_create_2d :=
  { hdr := hdr0, resource_id := 7, format := 1, width := 64, height := 64 }

/-- A set-scanout command binding resource 7 to scanout 0. -/
def ssEx : virtio_gpu_set_scanout :=
  { hdr := hdr0, r := { x := 0, y := 0, width := 0, height := 0 },
    scanout_id := 0, resource_id := 7 }

/-- An unref command for resource id 7. -/
def unrefEx : virtio_gpu_resource_unref :=
  { hdr := hdr0, resource_id := 7, padding := 0 }

/-- `gpu0` after successfully creating resource 7 (the adapter create
call succeeds and the post-creation query fails). -/
def gpu7 : VirtioGpu :=
  (gpu0.cmd_resource_create_2d (.ok ()) (.error ⟨0⟩) c2dEx).1

/- ------------------------------------------------------------------ -/
/- C1 -/

/-- C1: for every resource create command (2D or 3D) whose
renderer-adapter create call succeeds, the operation returns `OkNoData`
if and only if the post-creation query against the same id fails, and
whenever that query succeeds the operation is rejected with the
`ErrInvalidResourceId` (resource-not-created) response. -/
theorem c1_create_success_iff_query_fails :
    (∀ (s : VirtioGpu) (cmd : virtio_gpu_resource_create_2d) (q : RutabagaCall),
       ((s.cmd_resource_create_2d (.ok ()) q cmd).2 = .ok .OkNoData ↔
        q.isOk = false))
  ∧ (∀ (s : VirtioGpu) (cmd : virtio_gpu_resource_create_2d) (q : RutabagaCall),
       q.isOk = true →
       (s.cmd_resource_create_2d (.ok ()) q cmd).2 = .ok .ErrInvalidResourceId)
  ∧ (∀ (s : VirtioGpu) (cmd : virtio_gpu_resource_create_3d) (q : RutabagaCall),
       ((s.cmd_resource_create_3d (.ok ()) q cmd).2 = .ok .OkNoData ↔
        q.isOk = false))
  ∧ (∀ (s : VirtioGpu) (cmd : virtio_gpu_resource_create_3d) (q : RutabagaCall),
       q.isOk = true →
       (s.cmd_resource_create_3d (.ok ()) q cmd).2 = .ok .ErrInvalidResourceId) := by
  refine ⟨?_, ?_, ?_, ?_⟩ <;> intro s cmd q <;> cases q <;>
    simp [VirtioGpu.cmd_resource_create_2d, VirtioGpu.cmd_resource_create_3d,
      VirtioGpu.resource_create_3d, Except.isOk, Except.toBool]

/-- C1 witness: in the initial state, creating resource 7 with a
succeeding post-creation query is rejected with `ErrInvalidResourceId`,
and with a failing query it succeeds with `OkNoData`. -/
theorem c1_create_success_iff_query_fails_witness :
    (gpu0.cmd_resource_create_2d (.ok ()) (.ok ()) c2dEx).2 =
      .ok .ErrInvalidResourceId
  ∧ (gpu0.cmd_resource_create_2d (.ok ()) (.error ⟨0⟩) c2dEx).2 =
      .ok .OkNoData :=
  ⟨c1_create_success_iff_query_fails.2.1 gpu0 c2dEx (.ok ()) rfl,
   (c1_create_success_iff_query_fails.1 gpu0 c2dEx (.error ⟨0⟩)).mpr rfl⟩

/- ------------------------------------------------------------------ -/
/- C2 -/

/-- C2 counterexample: create resource 7, bind it as the scanout
resource, then unref it.  The unref succeeds (`OkNoData`), yet the
scanout binding still references resource id 7, refuting the claimed
invariant that no scanout or cursor slot references an unreferenced
resource. -/
theorem c2_counterexample :
    (((gpu7.cmd_set_scanout ssEx).1.cmd_resource_unref (.ok ()) unrefEx).2 =
       .ok .OkNoData)
  ∧ (((gpu7.cmd_set_scanout ssEx).1.cmd_resource_unref (.ok ())
        unrefEx).1.scanout_resource_id = some 7) := by
  constructor <;> rfl

/-- C2 (amended): after a resource unref for an id succeeds, the id is
no longer in the local resource table, but the scanout and cursor
bindings are left unchanged by the unref — they may still reference
the unreferenced resource id. -/
theorem c2_unref_leaves_bindings (s : VirtioGpu) (u : RutabagaCall)
    (cmd : virtio_gpu_resource_unref)
    (h : (s.cmd_resource_unref u cmd).2 = .ok .OkNoData) :
    mapGet (s.cmd_resource_unref u cmd).1.resources cmd.resource_id = none
    ∧ (s.cmd_resource_unref u cmd).1.scanout_resource_id =
        s.scanout_resource_id
    ∧ (s.cmd_resource_unref u cmd).1.cursor_resource_id =
        s.cursor_resource_id := by
  cases u with
  | error e => simp [VirtioGpu.cmd_resource_unref] at h
  | ok _ =>
    cases hg : mapGet s.resources cmd.resource_id with
    | none => simp [VirtioGpu.cmd_resource_unref, hg] at h
    | some r =>
      simp [VirtioGpu.cmd_resource_unref, hg, mapGet_mapErase_self]

/-- C2 (amended) witness: unreffing resource 7 in the state that holds
it removes it from the table while leaving both bindings unchanged. -/
theorem c2_unref_leaves_bindings_witness :
    mapGet (gpu7.cmd_resource_unref (.ok ()) unrefEx).1.resources 7 = none
    ∧ (gpu7.cmd_resource_unref (.ok ()) unrefEx).1.scanout_resource_id =
        gpu7.scanout_resource_id
    ∧ (gpu7.cmd_resource_unref (.ok ()) unrefEx).1.cursor_resource_id =
        gpu7.cursor_resource_id :=
  c2_unref_leaves_bindings gpu7 (.ok ()) unrefEx (by rfl)

/- ------------------------------------------------------------------ -/
/- C4 -/

/-- C4: resource unref consults the renderer adapter first (an adapter
failure propagates unchanged), and when the local record is absent it
fails with `ErrInvalidResourceId` even though the adapter call
succeeded; consequently create(id) followed by unref(id) succeeds and
a second unref(id) fails with the resource-not-found error. -/
theorem c4_unref_lifecycle :
    (∀ (s : VirtioGpu) (cmd : virtio_gpu_resource_unref) (e : RutabagaError),
       s.cmd_resource_unref (.error e) cmd = (s, .error (.RutabagaError e)))
  ∧ (∀ (s : VirtioGpu) (cmd : virtio_gpu_resource_unref),
       mapGet s.resources cmd.resource_id = none →
       s.cmd_resource_unref (.ok ()) cmd = (s, .error .ErrInvalidResourceId))
  ∧ (∀ (s : VirtioGpu) (c2 : virtio_gpu_resource_create_2d)
       (cmd : virtio_gpu_resource_unref) (qe : RutabagaError),
       cmd.resource_id = c2.resource_id →
       ((s.cmd_resource_create_2d (.ok ()) (.error qe) c2).1.cmd_resource_unref
          (.ok ()) cmd).2 = .ok .OkNoData)
  ∧ (∀ (s : VirtioGpu) (c2 : virtio_gpu_resource_create_2d)
       (cmd : virtio_gpu_resource_unref) (qe : RutabagaError),
       cmd.resource_id = c2.resource_id →
       (((s.cmd_resource_create_2d (.ok ()) (.error qe) c2).1.cmd_resource_unref
           (.ok ()) cmd).1.cmd_resource_unref (.ok ()) cmd).2 =
         .error .ErrInvalidResourceId) := by
  refine ⟨?_, ?_, ?_, ?_⟩
  · intro s cmd e; rfl
  · intro s cmd h; simp [VirtioGpu.cmd_resource_unref, h]
  · intro s c2 cmd qe h
    simp [VirtioGpu.cmd_resource_create_2d, VirtioGpu.resource_create_3d,
      VirtioGpu.cmd_resource_unref, h, mapGet_mapInsert_self]
  · intro s c2 cmd qe h
    simp [VirtioGpu.cmd_resource_create_2d, VirtioGpu.resource_create_3d,
      VirtioGpu.cmd_resource_unref, h, mapGet_mapInsert_self,
      mapGet_mapErase_self]

/-- C4 witness: concrete lifecycle for resource 7 starting from the
initial state. -/
theorem c4_unref_lifecycle_witness :
    ((gpu0.cmd_resource_create_2d (.ok ()) (.error ⟨0⟩) c2dEx).1.cmd_resource_unref
       (.ok ()) unrefEx).2 = .ok .OkNoData
  ∧ (((gpu0.cmd_resource_create_2d (.ok ()) (.error ⟨0⟩) c2dEx).1.cmd_resource_unref
        (.ok ()) unrefEx).1.cmd_resource_unref (.ok ()) unrefEx).2 =
      .error .ErrInvalidResourceId
  ∧ gpu0.cmd_resource_unref (.ok ()) unrefEx =
      (gpu0, .error .ErrInvalidResourceId) :=
  ⟨c4_unref_lifecycle.2.2.1 gpu0 c2dEx unrefEx ⟨0⟩ rfl,
   c4_unref_lifecycle.2.2.2 gpu0 c2dEx unrefEx ⟨0⟩ rfl,
   c4_unref_lifecycle.2.1 gpu0 unrefEx rfl⟩

/- ------------------------------------------------------------------ -/
/- C5 -/

/-- C5: each of the six defined protocol error variants encodes as a
header-only byte string whose `type` field is that error's fixed wire
code (0x1200-0x1205), and every internal failure variant encodes
header-only with the generic unspecified-error code 0x1200. -/
theorem c5_error_encode_codes :
    (∀ flags fence_id ctx_id : Nat,
       VirtioGpuResponse.ErrUnspec.encode flags fence_id ctx_id =
         .ok (le32 0x1200 ++ le32 flags ++ le64 fence_id ++ le32 ctx_id ++ le32 0))
  ∧ (∀ flags fence_id ctx_id : Nat,
       VirtioGpuResponse.ErrOutOfMemory.encode flags fence_id ctx_id =
         .ok (le32 0x1201 ++ le32 flags ++ le64 fence_id ++ le32 ctx_id ++ le32 0))
  ∧ (∀ flags fence_id ctx_id : Nat,
       VirtioGpuResponse.ErrInvalidScanoutId.encode flags fence_id ctx_id =
         .ok (le32 0x1202 ++ le32 flags ++ le64 fence_id ++ le32 ctx_id ++ le32 0))
  ∧ (∀ flags fence_id ctx_id : Nat,
       VirtioGpuResponse.ErrInvalidResourceId.encode flags fence_id ctx_id =
         .ok (le32 0x1203 ++ le32 flags ++ le64 fence_id ++ le32 ctx_id ++ le32 0))
  ∧ (∀ flags fence_id ctx_id : Nat,
       VirtioGpuResponse.ErrInvalidContextId.encode flags fence_id ctx_id =
         .ok (le32 0x1204 ++ le32 flags ++ le64 fence_id ++ le32 ctx_id ++ le32 0))
  ∧ (∀ flags fence_id ctx_id : Nat,
       VirtioGpuResponse.ErrInvalidParameter.encode flags fence_id ctx_id =
         .ok (le32 0x1205 ++ le32 flags ++ le64 fence_id ++ le32 ctx_id ++ le32 0))
  ∧ (∀ (n : Nat) (flags fence_id ctx_id : Nat),
       (VirtioGpuResponse.TooManyScanout n).encode flags fence_id ctx_id =
         .ok (le32 0x1200 ++ le32 flags ++ le64 fence_id ++ le32 ctx_id ++ le32 0))
  ∧ (∀ (e : GuestMemoryError) (flags fence_id ctx_id : Nat),
       (VirtioGpuResponse.EncodeError e).encode flags fence_id ctx_id =
         .ok (le32 0x1200 ++ le32 flags ++ le64 fence_id ++ le32 ctx_id ++ le32 0))
  ∧ (∀ (e : RutabagaError) (flags fence_id ctx_id : Nat),
       (VirtioGpuResponse.RutabagaError e).encode flags fence_id ctx_id =
         .ok (le32 0x1200 ++ le32 flags ++ le64 fence_id ++ le32 ctx_id ++ le32 0))
  ∧ (∀ (e : TryFromIntError) (flags fence_id ctx_id : Nat),
       (VirtioGpuResponse.UnsupportPlatform e).encode flags fence_id ctx_id =
         .ok (le32 0x1200 ++ le32 flags ++ le64 fence_id ++ le32 ctx_id ++ le32 0))
  ∧ (∀ flags fence_id ctx_id : Nat,
       VirtioGpuResponse.InvalidSglistRegion.encode flags fence_id ctx_id =
         .ok (le32 0x1200 ++ le32 flags ++ le64 fence_id ++ le32 ctx_id ++ le32 0)) := by
  refine ⟨?_, ?_, ?_, ?_, ?_, ?_, ?_, ?_, ?_, ?_, ?_⟩ <;> intros <;> rfl

/- ------------------------------------------------------------------ -/
/- C6 -/

/-- C6: set-scanout with `resource_id == 0` always succeeds and clears
both the scanout resource and surface bindings regardless of prior
state; with a nonzero id it fails with `ErrInvalidResourceId` when the
resource is absent, and otherwise binds the resource, allocating the
surface binding only if none exists. -/
theorem c6_set_scanout :
    (∀ (s : VirtioGpu) (cmd : virtio_gpu_set_scanout),
       cmd.resource_id = 0 →
       s.cmd_set_scanout cmd =
         ({ s with scanout_resource_id := none, scanout_surface_id := none },
          .ok .OkNoData))
  ∧ (∀ (s : VirtioGpu) (cmd : virtio_gpu_set_scanout),
       cmd.resource_id ≠ 0 →
       mapGet s.resources cmd.resource_id = none →
       s.cmd_set_scanout cmd = (s, .error .ErrInvalidResourceId))
  ∧ (∀ (s : VirtioGpu) (cmd : virtio_gpu_set_scanout) (r : VirtioGpuResource),
       cmd.resource_id ≠ 0 →
       mapGet s.resources cmd.resource_id = some r →
       (s.cmd_set_scanout cmd).2 = .ok .OkNoData
       ∧ (s.cmd_set_scanout cmd).1.scanout_resource_id = some cmd.resource_id
       ∧ (s.cmd_set_scanout cmd).1.scanout_surface_id =
           (if s.scanout_surface_id = none then some cmd.scanout_id
            else s.scanout_surface_id)
       ∧ (s.cmd_set_scanout cmd).1.resources = s.resources) := by
  refine ⟨?_, ?_, ?_⟩
  · intro s cmd h; simp [VirtioGpu.cmd_set_scanout, h]
  · intro s cmd h hg; simp [VirtioGpu.cmd_set_scanout, h, hg]
  · intro s cmd r h hg
    cases hs : s.scanout_surface_id <;>
      simp [VirtioGpu.cmd_set_scanout, h, hg, hs, nonZeroU32New]

/-- C6 witness: clearing an existing binding with `resource_id = 0`
and binding an existing resource both behave as stated. -/
theorem c6_set_scanout_witness :
    (gpu7.cmd_set_scanout ssEx).1.cmd_set_scanout
        { hdr := hdr0, r := { x := 0, y := 0, width := 0, height := 0 },
          scanout_id := 3, resource_id := 0 } =
      ({ (gpu7.cmd_set_scanout ssEx).1 with
           scanout_resource_id := none, scanout_surface_id := none },
       .ok .OkNoData)
  ∧ (gpu7.cmd_set_scanout ssEx).2 = .ok .OkNoData :=
  ⟨c6_set_scanout.1 (gpu7.cmd_set_scanout ssEx).1
     { hdr := hdr0, r := { x := 0, y := 0, width := 0, height := 0 },
       scanout_id := 3, resource_id := 0 } rfl,
   (c6_set_scanout.2.2 gpu7 ssEx (VirtioGpuResource.new 7 64 64 0)
      (by decide) (by rfl)).1⟩

/- ------------------------------------------------------------------ -/
/- C10 -/

/-- C10: when resource create takes the rejection path (adapter create
succeeds and the post-creation query also succeeds, producing the
`ErrInvalidResourceId` response), the freshly built record has already
been inserted into the local resource table and remains there, so a
subsequent command referencing that id (here set-scanout) finds it. -/
theorem c10_reject_path_inserts :
    (∀ (s : VirtioGpu) (rid : Nat) (rc : ResourceCreate3D),
       s.resource_create_3d (.ok ()) (.ok ()) rid rc =
         ({ s with resources :=
              mapInsert s.resources rid (VirtioGpuResource.new rid rc.width rc.height 0) },
          .ok .ErrInvalidResourceId))
  ∧ (∀ (s : VirtioGpu) (rid : Nat) (rc : ResourceCreate3D),
       mapGet (s.resource_create_3d (.ok ()) (.ok ()) rid rc).1.resources rid =
         some (VirtioGpuResource.new rid rc.width rc.height 0))
  ∧ (∀ (s : VirtioGpu) (rid : Nat) (rc : ResourceCreate3D)
       (sc : virtio_gpu_set_scanout),
       rid ≠ 0 → sc.resource_id = rid →
       ((s.resource_create_3d (.ok ()) (.ok ()) rid rc).1.cmd_set_scanout sc).2 =
         .ok .OkNoData) := by
  refine ⟨?_, ?_, ?_⟩
  · intro s rid rc; rfl
  · intro s rid rc
    simp [VirtioGpu.resource_create_3d, mapGet_mapInsert_self]
  · intro s rid rc sc h hsc
    simp [VirtioGpu.resource_create_3d, VirtioGpu.cmd_set_scanout, hsc, h,
      mapGet_mapInsert_self]

/-- C10 witness: the rejection path for resource 9 leaves the record
in the table and a following set-scanout for id 9 succeeds. -/
theorem c10_reject_path_inserts_witness :
    mapGet (gpu0.resource_create_3d (.ok ()) (.ok ()) 9
              { target := 2, format := 1, bind := 2, width := 32, height := 32,
                depth := 1, array_size := 1, last_level := 0, nr_samples := 0,
                flags := 0 }).1.resources 9 =
      some (VirtioGpuResource.new 9 32 32 0)
  ∧ ((gpu0.resource_create_3d (.ok ()) (.ok ()) 9
        { target := 2, format := 1, bind := 2, width := 32, height := 32,
          depth := 1, array_size := 1, last_level := 0, nr_samples := 0,
          flags := 0 }).1.cmd_set_scanout
        { hdr := hdr0, r := { x := 0, y := 0, width := 0, height := 0 },
          scanout_id := 0, resource_id := 9 }).2 = .ok .OkNoData :=
  ⟨c10_reject_path_inserts.2.1 gpu0 9 _,
   c10_reject_path_inserts.2.2 gpu0 9 _ _ (by decide) rfl⟩

/- ------------------------------------------------------------------ -/
/- C3 -/

/-- Byte layout of an active display-mode record as the claim states
it: `{x = 0, y = 0, w = width, h = height, enabled = 1, flags = 0}`. -/
def activeDisplayBytes (wh : Nat × Nat) : List Nat :=
  le32 0 ++ le32 0 ++ le32 wh.1 ++ le32 wh.2 ++ le32 1 ++ le32 0

theorem displayOneBytes_default :
    displayOneBytes displayOneDefault = List.replicate 24 0 := by
  decide

theorem flatten_replicate_24zero (k : Nat) :
    (List.replicate k (List.replicate 24 (0 : Nat))).flatten =
      List.replicate (k * 24) 0 := by
  induction k with
  | zero => rfl
  | succ n ih =>
    rw [List.replicate_succ, List.flatten_cons, ih]
    have h24 : (n + 1) * 24 = 24 + n * 24 := by ring
    rw [h24, List.replicate_add]

theorem setPmodes_bytes (l : List (Nat × Nat)) :
    ((setPmodes l).map displayOneBytes).flatten =
      (l.map activeDisplayBytes).flatten ++
      List.replicate ((VIRTIO_GPU_MAX_SCANOUTS - l.length) * 24) 0 := by
  unfold setPmodes
  rw [List.map_append, List.flatten_append, List.map_map, List.map_replicate,
    displayOneBytes_default, flatten_replicate_24zero]
  rfl

theorem ctrlHdrBytes_length (h : virtio_gpu_ctrl_hdr) :
    (ctrlHdrBytes h).length = 24 := by
  simp [ctrlHdrBytes, le32, le64]

theorem flatten_map_displayOneBytes_length
    (pm : List virtio_gpu_display_one) :
    ((pm.map displayOneBytes).flatten).length = 24 * pm.length := by
  induction pm with
  | nil => rfl
  | cons a tl ih =>
    simp [displayOneBytes, le32, ih]
    ring

theorem setPmodes_length (l : List (Nat × Nat))
    (h : l.length ≤ VIRTIO_GPU_MAX_SCANOUTS) :
    (setPmodes l).length = 16 := by
  simp only [VIRTIO_GPU_MAX_SCANOUTS] at h
  simp [setPmodes, VIRTIO_GPU_MAX_SCANOUTS]
  omega

/-- C3: encoding `OkDisplayInfo` with more than 16 displays fails with
`TooManyScanout` before producing any bytes; with `n ≤ 16` displays it
emits the 24-byte header followed by the `n` active 24-byte records
`{x=0, y=0, w=width, h=height, enabled=1, flags=0}` and `16 - n`
all-zero records, 408 bytes in total. -/
theorem c3_display_info_encode :
    (∀ (l : List (Nat × Nat)) (flags fence_id ctx_id : Nat),
       l.length > VIRTIO_GPU_MAX_SCANOUTS →
       (VirtioGpuResponse.OkDisplayInfo l).encode flags fence_id ctx_id =
         .error (.TooManyScanout l.length))
  ∧ (∀ (l : List (Nat × Nat)) (flags fence_id ctx_id : Nat),
       l.length ≤ VIRTIO_GPU_MAX_SCANOUTS →
       (VirtioGpuResponse.OkDisplayInfo l).encode flags fence_id ctx_id =
         .ok (ctrlHdrBytes
                { type_ := VIRTIO_GPU_RESP_OK_DISPLAY_INFO, flags := flags,
                  fence_id := fence_id, ctx_id := ctx_id, padding := 0 } ++
              ((l.map activeDisplayBytes).flatten ++
               List.replicate ((VIRTIO_GPU_MAX_SCANOUTS - l.length) * 24) 0)))
  ∧ (∀ (l : List (Nat × Nat)) (flags fence_id ctx_id : Nat) (bs : List Nat),
       (VirtioGpuResponse.OkDisplayInfo l).encode flags fence_id ctx_id = .ok bs →
       bs.length = 408) := by
  refine ⟨?_, ?_, ?_⟩
  · intro l flags fence_id ctx_id h
    simp [VirtioGpuResponse.encode, h]
  · intro l flags fence_id ctx_id h
    have h' : ¬ l.length > VIRTIO_GPU_MAX_SCANOUTS := by omega
    simp [VirtioGpuResponse.encode, h',
      VirtioGpuResponse.get_resp_command_const, setPmodes_bytes]
  · intro l flags fence_id ctx_id bs hok
    by_cases hl : l.length > VIRTIO_GPU_MAX_SCANOUTS
    · simp [VirtioGpuResponse.encode, hl] at hok
    · simp [VirtioGpuResponse.encode, hl] at hok
      rw [← hok, List.length_append, ctrlHdrBytes_length,
        flatten_map_displayOneBytes_length,
        setPmodes_length l (by omega)]

/-- A 17-entry display list, above the 16-scanout limit. -/
def l17 : List (Nat × Nat) := List.replicate 17 (0, 0)

/-- C3 witness: 17 displays are rejected with `TooManyScanout`, one
1920x1080 display yields the fixed 408-byte layout. -/
theorem c3_display_info_encode_witness :
    (VirtioGpuResponse.OkDisplayInfo l17).encode 0 0 0 =
      .error (.TooManyScanout l17.length)
  ∧ (VirtioGpuResponse.OkDisplayInfo [(1920, 1080)]).encode 1 0 0 =
      .ok (ctrlHdrBytes
             { type_ := VIRTIO_GPU_RESP_OK_DISPLAY_INFO, flags := 1,
               fence_id := 0, ctx_id := 0, padding := 0 } ++
           (([((1920 : Nat), (1080 : Nat))].map activeDisplayBytes).flatten ++
            List.replicate ((VIRTIO_GPU_MAX_SCANOUTS - 1) * 24) 0)) :=
  ⟨c3_display_info_encode.1 l17 0 0 0 (by decide),
   c3_display_info_encode.2.1 [(1920, 1080)] 1 0 0 (by decide)⟩

/- ------------------------------------------------------------------ -/
/- C9 -/

/-- C9: translating a guest scatter-gather list validates every span
before translating any: if some span is unmapped the whole translation
fails with `InvalidSglistRegion` and no iovec list is produced, and
when all spans are valid the result has one iovec per span, in order.  -/
theorem c9_sglist_translation :
    (∀ (vecs : List (Nat × Nat)) (mem : SgMem),
       (∃ al ∈ vecs, mem.get_slice_ok al.1 al.2 = false) →
       sglist_to_rutabaga_iovecs vecs mem = .error .InvalidSglistRegion)
  ∧ (∀ (vecs : List (Nat × Nat)) (mem : SgMem),
       (∀ al ∈ vecs, mem.get_slice_ok al.1 al.2 = true) →
       sglist_to_rutabaga_iovecs vecs mem =
         .ok (vecs.map fun al =>
           { base := mem.get_host_address al.1, len := al.2 }))
  ∧ (∀ (vecs : List (Nat × Nat)) (mem : SgMem) (res : List RutabagaIovec),
       sglist_to_rutabaga_iovecs vecs mem = .ok res →
       res.length = vecs.length) := by
  refine ⟨?_, ?_, ?_⟩
  · intro vecs mem h
    have ha : (vecs.any fun al => !(mem.get_slice_ok al.1 al.2)) = true := by
      rcases h with ⟨al, hal, hfalse⟩
      exact List.any_eq_true.mpr ⟨al, hal, by simp [hfalse]⟩
    simp [sglist_to_rutabaga_iovecs, ha]
  · intro vecs mem h
    have ha : (vecs.any fun al => !(mem.get_slice_ok al.1 al.2)) = false := by
      rw [List.any_eq_false]
      intro al hal
      simp [h al hal]
    simp [sglist_to_rutabaga_iovecs, ha]
  · intro vecs mem res hok
    by_cases ha : (vecs.any fun al => !(mem.get_slice_ok al.1 al.2)) = true
    · simp [sglist_to_rutabaga_iovecs, ha] at hok
    · simp [sglist_to_rutabaga_iovecs, ha] at hok
      rw [← hok]
      simp

/-- A concrete scatter-gather memory oracle: spans ending at or before
address 10 are mapped, host addresses are guest address + 1000. -/
def sgMemEx : SgMem :=
  { get_slice_ok := fun a len => decide (a + len ≤ 10),
    get_host_address := fun a => 1000 + a }

/-- C9 witness: a list with an unmapped span fails whole; a fully
mapped list yields one iovec per span. -/
theorem c9_sglist_translation_witness :
    sglist_to_rutabaga_iovecs [(0, 4), (8, 8)] sgMemEx =
      .error .InvalidSglistRegion
  ∧ sglist_to_rutabaga_iovecs [(0, 4), (4, 6)] sgMemEx =
      .ok [{ base := 1000, len := 4 }, { base := 1004, len := 6 }] :=
  ⟨c9_sglist_translation.1 [(0, 4), (8, 8)] sgMemEx
     ⟨(8, 8), by decide, by decide⟩,
   c9_sglist_translation.2.1 [(0, 4), (4, 6)] sgMemEx (by decide)⟩

/- ------------------------------------------------------------------ -/
/- C8 -/

theorem flush_skip_when_busy (s : VirtioGpu) (d : DisplayOracle)
    (tr : RutabagaCall) (rid sid : Nat)
    (hc : mapContains s.resources rid = true)
    (hb : d.nextBufferInUse sid = true) :
    s.flush_resource_to_surface d tr rid sid = (.ok .OkNoData, []) := by
  simp [VirtioGpu.flush_resource_to_surface, VirtioGpu.import_to_display,
    hc, hb]

/-- C8: resource flush with `resource_id == 0` succeeds immediately
with no state change and no transfer or flip; on the copy path, when
the target surface's next buffer is still in use the copy is skipped —
the flush is dropped with success and no transfer or flip — and hence
a whole flush command under a busy display performs no pixel work. -/
theorem c8_flush_backpressure :
    (∀ (s : VirtioGpu) (d : DisplayOracle) (t1 t2 : RutabagaCall)
       (cmd : virtio_gpu_resource_flush),
       cmd.resource_id = 0 →
       s.cmd_flush_resource d t1 t2 cmd = (s, .ok .OkNoData, []))
  ∧ (∀ (s : VirtioGpu) (d : DisplayOracle) (tr : RutabagaCall) (rid sid : Nat),
       mapContains s.resources rid = true →
       d.nextBufferInUse sid = true →
       s.flush_resource_to_surface d tr rid sid = (.ok .OkNoData, []))
  ∧ (∀ (s : VirtioGpu) (d : DisplayOracle) (t1 t2 : RutabagaCall)
       (cmd : virtio_gpu_resource_flush),
       cmd.resource_id ≠ 0 →
       mapContains s.resources cmd.resource_id = true →
       (∀ n, d.nextBufferInUse n = true) →
       s.cmd_flush_resource d t1 t2 cmd = (s, .ok .OkNoData, [])) := by
  refine ⟨?_, ?_, ?_⟩
  · intro s d t1 t2 cmd h
    simp [VirtioGpu.cmd_flush_resource, h]
  · intro s d tr rid sid hc hb
    exact flush_skip_when_busy s d tr rid sid hc hb
  · intro s d t1 t2 cmd h0 hc hb
    have hflush : ∀ (tr : RutabagaCall) (sid : Nat),
        s.flush_resource_to_surface d tr cmd.resource_id sid =
          (.ok .OkNoData, []) :=
      fun tr sid => flush_skip_when_busy s d tr cmd.resource_id sid hc (hb sid)
    simp only [VirtioGpu.cmd_flush_resource]
    rw [if_neg h0]
    cases hs1 : s.scanout_resource_id <;> cases hs2 : s.scanout_surface_id <;>
      cases hc1 : s.cursor_resource_id <;> cases hc2 : s.cursor_surface_id <;>
      simp [hflush]

/-- A display oracle whose every surface reports its next buffer as
still in use (full backpressure), with framebuffers available. -/
def dBusy : DisplayOracle :=
  { nextBufferInUse := fun _ => true,
    framebufferRegionStride := fun _ _ _ _ _ => some 4 }

/-- A flush command for resource id 0. -/
def flushEx0 : virtio_gpu_resource_flush :=
  { hdr := hdr0, r := { x := 0, y := 0, width := 0, height := 0 },
    resource_id := 0, padding := 0 }

/-- A flush command for resource id 7. -/
def flushEx7 : virtio_gpu_resource_flush :=
  { hdr := hdr0, r := { x := 0, y := 0, width := 0, height := 0 },
    resource_id := 7, padding := 0 }

/-- C8 witness: flushing id 0 is a traced no-op, and flushing the
bound scanout resource 7 under a busy display drops the frame with
success and no transfer or flip events. -/
theorem c8_flush_backpressure_witness :
    gpu7.cmd_flush_resource dBusy (.ok ()) (.ok ()) flushEx0 =
      (gpu7, .ok .OkNoData, [])
  ∧ (gpu7.cmd_set_scanout ssEx).1.cmd_flush_resource dBusy (.ok ()) (.ok ())
      flushEx7 = ((gpu7.cmd_set_scanout ssEx).1, .ok .OkNoData, []) :=
  ⟨c8_flush_backpressure.1 gpu7 dBusy (.ok ()) (.ok ()) flushEx0 rfl,
   c8_flush_backpressure.2.2 (gpu7.cmd_set_scanout ssEx).1 dBusy (.ok ())
     (.ok ()) flushEx7 (by decide) (by rfl) (fun _ => rfl)⟩

/- ------------------------------------------------------------------ -/
/- C7 -/

theorem decode_unknown (m : GuestMem) (addr : Nat) (h : virtio_gpu_ctrl_hdr)
    (h1 : m.read_ctrl_hdr addr = .ok h)
    (hk : isKnownOpcode h.type_ = false) :
    VirtioGpuCommand.decode m addr = .error (.InvalidCommand h.type_) := by
  have t1 : ¬ h.type_ = VIRTIO_GPU_CMD_GET_DISPLAY_INFO := by
    intro hc; rw [hc] at hk; exact absurd hk (by decide)
  have t2 : ¬ h.type_ = VIRTIO_GPU_CMD_RESOURCE_CREATE_2D := by
    intro hc; rw [hc] at hk; exact absurd hk (by decide)
  have t3 : ¬ h.type_ = VIRTIO_GPU_CMD_RESOURCE_UNREF := by
    intro hc; rw [hc] at hk; exact absurd hk (by decide)
  have t4 : ¬ h.type_ = VIRTIO_GPU_CMD_TRANSFER_TO_HOST_2D := by
    intro hc; rw [hc] at hk; exact absurd hk (by decide)
  have t5 : ¬ h.type_ = VIRTIO_GPU_CMD_SET_SCANOUT := by
    intro hc; rw [hc] at hk; exact absurd hk (by decide)
  have t6 : ¬ h.type_ = VIRTIO_GPU_CMD_RESOURCE_FLUSH := by
    intro hc; rw [hc] at hk; exact absurd hk (by decide)
  have t7 : ¬ h.type_ = VIRTIO_GPU_CMD_RESOURCE_ATTACH_BACKING := by
    intro hc; rw [hc] at hk; exact absurd hk (by decide)
  have t8 : ¬ h.type_ = VIRTIO_GPU_CMD_RESOURCE_DETACH_BACKING := by
    intro hc; rw [hc] at hk; exact absurd hk (by decide)
  have t9 : ¬ h.type_ = VIRTIO_GPU_CMD_GET_CAPSET_INFO := by
    intro hc; rw [hc] at hk; exact absurd hk (by decide)
  have t10 : ¬ h.type_ = VIRTIO_GPU_CMD_GET_CAPSET := by
    intro hc; rw [hc] at hk; exact absurd hk (by decide)
  have t11 : ¬ h.type_ = VIRTIO_GPU_CMD_GET_EDID := by
    intro hc; rw [hc] at hk; exact absurd hk (by decide)
  have t12 : ¬ h.type_ = VIRTIO_GPU_CMD_CTX_CREATE := by
    intro hc; rw [hc] at hk; exact absurd hk (by decide)
  have t13 : ¬ h.type_ = VIRTIO_GPU_CMD_CTX_DESTROY := by
    intro hc; rw [hc] at hk; exact absurd hk (by decide)
  have t14 : ¬ h.type_ = VIRTIO_GPU_CMD_CTX_ATTACH_RESOURCE := by
    intro hc; rw [hc] at hk; exact absurd hk (by decide)
  have t15 : ¬ h.type_ = VIRTIO_GPU_CMD_CTX_DETACH_RESOURCE := by
    intro hc; rw [hc] at hk; exact absurd hk (by decide)
  have t16 : ¬ h.type_ = VIRTIO_GPU_CMD_RESOURCE_CREATE_3D := by
    intro hc; rw [hc] at hk; exact absurd hk (by decide)
  have t17 : ¬ h.type_ = VIRTIO_GPU_CMD_TRANSFER_TO_HOST_3D := by
    intro hc; rw [hc] at hk; exact absurd hk (by decide)
  have t18 : ¬ h.type_ = VIRTIO_GPU_CMD_TRANSFER_FROM_HOST_3D := by
    intro hc; rw [hc] at hk; exact absurd hk (by decide)
  have t19 : ¬ h.type_ = VIRTIO_GPU_CMD_SUBMIT_3D := by
    intro hc; rw [hc] at hk; exact absurd hk (by decide)
  have t20 : ¬ h.type_ = VIRTIO_GPU_CMD_UPDATE_CURSOR := by
    intro hc; rw [hc] at hk; exact absurd hk (by decide)
  have t21 : ¬ h.type_ = VIRTIO_GPU_CMD_MOVE_CURSOR := by
    intro hc; rw [hc] at hk; exact absurd hk (by decide)
  simp only [VirtioGpuCommand.decode, h1]
  rw [if_neg t1, if_neg t2, if_neg t3, if_neg t4, if_neg t5, if_neg t6, if_neg t7, if_neg t8, if_neg t9, if_neg t10, if_neg t11, if_neg t12, if_neg t13, if_neg t14, if_neg t15, if_neg t16, if_neg t17, if_neg t18, if_neg t19, if_neg t20, if_neg t21]

/-- C7: decode returns `ParserError` wrapping the memory source's
native error when the header read fails; when the header's type is not
one of the 21 known opcodes it returns `InvalidCommand(type)` without
depending on any payload reader (no further payload read); and for
every known opcode it returns the matching command variant on a
successful payload read and `ParserError` on a failing one. -/
theorem c7_decode_dispatch :
    (∀ (m : GuestMem) (addr : Nat) (e : GuestMemoryError),
       m.read_ctrl_hdr addr = .error e →
       VirtioGpuCommand.decode m addr = .error (.ParserError e))
  ∧ (∀ (m : GuestMem) (addr : Nat) (h : virtio_gpu_ctrl_hdr),
       m.read_ctrl_hdr addr = .ok h → isKnownOpcode h.type_ = false →
       ∀ (m2 : GuestMem), m2.read_ctrl_hdr = m.read_ctrl_hdr →
       VirtioGpuCommand.decode m2 addr = .error (.InvalidCommand h.type_))
  ∧ (∀ (m : GuestMem) (addr : Nat) (h : virtio_gpu_ctrl_hdr),
       m.read_ctrl_hdr addr = .ok h → h.type_ = VIRTIO_GPU_CMD_GET_DISPLAY_INFO →
       VirtioGpuCommand.decode m addr = .ok (.CmdGetDisplayInfo h))
  ∧ (∀ (m : GuestMem) (addr : Nat) (h : virtio_gpu_ctrl_hdr) (p : virtio_gpu_resource_create_2d),
       m.read_ctrl_hdr addr = .ok h → h.type_ = VIRTIO_GPU_CMD_RESOURCE_CREATE_2D →
       m.read_resource_create_2d addr = .ok p →
       VirtioGpuCommand.decode m addr = .ok (.CmdResourceCreate2D p))
  ∧ (∀ (m : GuestMem) (addr : Nat) (h : virtio_gpu_ctrl_hdr) (e : GuestMemoryError),
       m.read_ctrl_hdr addr = .ok h → h.type_ = VIRTIO_GPU_CMD_RESOURCE_CREATE_2D →
       m.read_resource_create_2d addr = .error e →
       VirtioGpuCommand.decode m addr = .error (.ParserError e))
  ∧ (∀ (m : GuestMem) (addr : Nat) (h : virtio_gpu_ctrl_hdr) (p : virtio_gpu_resource_unref),
       m.read_ctrl_hdr addr = .ok h → h.type_ = VIRTIO_GPU_CMD_RESOURCE_UNREF →
       m.read_resource_unref addr = .ok p →
       VirtioGpuCommand.decode m addr = .ok (.CmdResourceUnref p))
  ∧ (∀ (m : GuestMem) (addr : Nat) (h : virtio_gpu_ctrl_hdr) (e : GuestMemoryError),
       m.read_ctrl_hdr addr = .ok h → h.type_ = VIRTIO_GPU_CMD_RESOURCE_UNREF →
       m.read_resource_unref addr = .error e →
       VirtioGpuCommand.decode m addr = .error (.ParserError e))
  ∧ (∀ (m : GuestMem) (addr : Nat) (h : virtio_gpu_ctrl_hdr) (p : virtio_gpu_transfer_to_host_2d),
       m.read_ctrl_hdr addr = .ok h → h.type_ = VIRTIO_GPU_CMD_TRANSFER_TO_HOST_2D →
       m.read_transfer_to_host_2d addr = .ok p →
       VirtioGpuCommand.decode m addr = .ok (.CmdTransferToHost2D p))
  ∧ (∀ (m : GuestMem) (addr : Nat) (h : virtio_gpu_ctrl_hdr) (e : GuestMemoryError),
       m.read_ctrl_hdr addr = .ok h → h.type_ = VIRTIO_GPU_CMD_TRANSFER_TO_HOST_2D →
       m.read_transfer_to_host_2d addr = .error e →
       VirtioGpuCommand.decode m addr = .error (.ParserError e))
  ∧ (∀ (m : GuestMem) (addr : Nat) (h : virtio_gpu_ctrl_hdr) (p : virtio_gpu_set_scanout),
       m.read_ctrl_hdr addr = .ok h → h.type_ = VIRTIO_GPU_CMD_SET_SCANOUT →
       m.read_set_scanout addr = .ok p →
       VirtioGpuCommand.decode m addr = .ok (.CmdSetScanout p))
  ∧ (∀ (m : GuestMem) (addr : Nat) (h : virtio_gpu_ctrl_hdr) (e : GuestMemoryError),
       m.read_ctrl_hdr addr = .ok h → h.type_ = VIRTIO_GPU_CMD_SET_SCANOUT →
       m.read_set_scanout addr = .error e →
       VirtioGpuCommand.decode m addr = .error (.ParserError e))
  ∧ (∀ (m : GuestMem) (addr : Nat) (h : virtio_gpu_ctrl_hdr) (p : virtio_gpu_resource_flush),
       m.read_ctrl_hdr addr = .ok h → h.type_ = VIRTIO_GPU_CMD_RESOURCE_FLUSH →
       m.read_resource_flush addr = .ok p →
       VirtioGpuCommand.decode m addr = .ok (.CmdResourceFlush p))
  ∧ (∀ (m : GuestMem) (addr : Nat) (h : virtio_gpu_ctrl_hdr) (e : GuestMemoryError),
       m.read_ctrl_hdr addr = .ok h → h.type_ = VIRTIO_GPU_CMD_RESOURCE_FLUSH →
       m.read_resource_flush addr = .error e →
       VirtioGpuCommand.decode m addr = .error (.ParserError e))
  ∧ (∀ (m : GuestMem) (addr : Nat) (h : virtio_gpu_ctrl_hdr) (p : virtio_gpu_resource_attach_backing),
       m.read_ctrl_hdr addr = .ok h → h.type_ = VIRTIO_GPU_CMD_RESOURCE_ATTACH_BACKING →
       m.read_attach_backing addr = .ok p →
       VirtioGpuCommand.decode m addr = .ok (.CmdResourceAttachBacking p))
  ∧ (∀ (m : GuestMem) (addr : Nat) (h : virtio_gpu_ctrl_hdr) (e : GuestMemoryError),
       m.read_ctrl_hdr addr = .ok h → h.type_ = VIRTIO_GPU_CMD_RESOURCE_ATTACH_BACKING →
       m.read_attach_backing addr = .error e →
       VirtioGpuCommand.decode m addr = .error (.ParserError e))
  ∧ (∀ (m : GuestMem) (addr : Nat) (h : virtio_gpu_ctrl_hdr) (p : virtio_gpu_resource_detach_backing),
       m.read_ctrl_hdr addr = .ok h → h.type_ = VIRTIO_GPU_CMD_RESOURCE_DETACH_BACKING →
       m.read_detach_backing addr = .ok p →
       VirtioGpuCommand.decode m addr = .ok (.CmdResourceDetachBacking p))
  ∧ (∀ (m : GuestMem) (addr : Nat) (h : virtio_gpu_ctrl_hdr) (e : GuestMemoryError),
       m.read_ctrl_hdr addr = .ok h → h.type_ = VIRTIO_GPU_CMD_RESOURCE_DETACH_BACKING →
       m.read_detach_backing addr = .error e →
       VirtioGpuCommand.decode m addr = .error (.ParserError e))
  ∧ (∀ (m : GuestMem) (addr : Nat) (h : virtio_gpu_ctrl_hdr) (p : virtio_gpu_get_capset_info),
       m.read_ctrl_hdr addr = .ok h → h.type_ = VIRTIO_GPU_CMD_GET_CAPSET_INFO →
       m.read_get_capset_info addr = .ok p →
       VirtioGpuCommand.decode m addr = .ok (.CmdGetCapsetInfo p))
  ∧ (∀ (m : GuestMem) (addr : Nat) (h : virtio_gpu_ctrl_hdr) (e : GuestMemoryError),
       m.read_ctrl_hdr addr = .ok h → h.type_ = VIRTIO_GPU_CMD_GET_CAPSET_INFO →
       m.read_get_capset_info addr = .error e →
       VirtioGpuCommand.decode m addr = .error (.ParserError e))
  ∧ (∀ (m : GuestMem) (addr : Nat) (h : virtio_gpu_ctrl_hdr) (p : virtio_gpu_get_capset),
       m.read_ctrl_hdr addr = .ok h → h.type_ = VIRTIO_GPU_CMD_GET_CAPSET →
       m.read_get_capset addr = .ok p →
       VirtioGpuCommand.decode m addr = .ok (.CmdGetCapset p))
  ∧ (∀ (m : GuestMem) (addr : Nat) (h : virtio_gpu_ctrl_hdr) (e : GuestMemoryError),
       m.read_ctrl_hdr addr = .ok h → h.type_ = VIRTIO_GPU_CMD_GET_CAPSET →
       m.read_get_capset addr = .error e →
       VirtioGpuCommand.decode m addr = .error (.ParserError e))
  ∧ (∀ (m : GuestMem) (addr : Nat) (h : virtio_gpu_ctrl_hdr) (p : virtio_gpu_cmd_get_edid),
       m.read_ctrl_hdr addr = .ok h → h.type_ = VIRTIO_GPU_CMD_GET_EDID →
       m.read_get_edid addr = .ok p →
       VirtioGpuCommand.decode m addr = .ok (.CmdGetEdid p))
  ∧ (∀ (m : GuestMem) (addr : Nat) (h : virtio_gpu_ctrl_hdr) (e : GuestMemoryError),
       m.read_ctrl_hdr addr = .ok h → h.type_ = VIRTIO_GPU_CMD_GET_EDID →
       m.read_get_edid addr = .error e →
       VirtioGpuCommand.decode m addr = .error (.ParserError e))
  ∧ (∀ (m : GuestMem) (addr : Nat) (h : virtio_gpu_ctrl_hdr) (p : virtio_gpu_ctx_create),
       m.read_ctrl_hdr addr = .ok h → h.type_ = VIRTIO_GPU_CMD_CTX_CREATE →
       m.read_ctx_create addr = .ok p →
       VirtioGpuCommand.decode m addr = .ok (.CmdCtxCreate p))
  ∧ (∀ (m : GuestMem) (addr : Nat) (h : virtio_gpu_ctrl_hdr) (e : GuestMemoryError),
       m.read_ctrl_hdr addr = .ok h → h.type_ = VIRTIO_GPU_CMD_CTX_CREATE →
       m.read_ctx_create addr = .error e →
       VirtioGpuCommand.decode m addr = .error (.ParserError e))
  ∧ (∀ (m : GuestMem) (addr : Nat) (h : virtio_gpu_ctrl_hdr) (p : virtio_gpu_ctx_destroy),
       m.read_ctrl_hdr addr = .ok h → h.type_ = VIRTIO_GPU_CMD_CTX_DESTROY →
       m.read_ctx_destroy addr = .ok p →
       VirtioGpuCommand.decode m addr = .ok (.CmdCtxDestroy p))
  ∧ (∀ (m : GuestMem) (addr : Nat) (h : virtio_gpu_ctrl_hdr) (e : GuestMemoryError),
       m.read_ctrl_hdr addr = .ok h → h.type_ = VIRTIO_GPU_CMD_CTX_DESTROY →
       m.read_ctx_destroy addr = .error e →
       VirtioGpuCommand.decode m addr = .error (.ParserError e))
  ∧ (∀ (m : GuestMem) (addr : Nat) (h : virtio_gpu_ctrl_hdr) (p : virtio_gpu_ctx_resource),
       m.read_ctrl_hdr addr = .ok h → h.type_ = VIRTIO_GPU_CMD_CTX_ATTACH_RESOURCE →
       m.read_ctx_resource addr = .ok p →
       VirtioGpuCommand.decode m addr = .ok (.CmdCtxAttachResource p))
  ∧ (∀ (m : GuestMem) (addr : Nat) (h : virtio_gpu_ctrl_hdr) (e : GuestMemoryError),
       m.read_ctrl_hdr addr = .ok h → h.type_ = VIRTIO_GPU_CMD_CTX_ATTACH_RESOURCE →
       m.read_ctx_resource addr = .error e →
       VirtioGpuCommand.decode m addr = .error (.ParserError e))
  ∧ (∀ (m : GuestMem) (addr : Nat) (h : virtio_gpu_ctrl_hdr) (p : virtio_gpu_ctx_resource),
       m.read_ctrl_hdr addr = .ok h → h.type_ = VIRTIO_GPU_CMD_CTX_DETACH_RESOURCE →
       m.read_ctx_resource addr = .ok p →
       VirtioGpuCommand.decode m addr = .ok (.CmdCtxDetachResource p))
  ∧ (∀ (m : GuestMem) (addr : Nat) (h : virtio_gpu_ctrl_hdr) (e : GuestMemoryError),
       m.read_ctrl_hdr addr = .ok h → h.type_ = VIRTIO_GPU_CMD_CTX_DETACH_RESOURCE →
       m.read_ctx_resource addr = .error e →
       VirtioGpuCommand.decode m addr = .error (.ParserError e))
  ∧ (∀ (m : GuestMem) (addr : Nat) (h : virtio_gpu_ctrl_hdr) (p : virtio_gpu_resource_create_3d),
       m.read_ctrl_hdr addr = .ok h → h.type_ = VIRTIO_GPU_CMD_RESOURCE_CREATE_3D →
       m.read_resource_create_3d addr = .ok p →
       VirtioGpuCommand.decode m addr = .ok (.CmdResourceCreate3D p))
  ∧ (∀ (m : GuestMem) (addr : Nat) (h : virtio_gpu_ctrl_hdr) (e : GuestMemoryError),
       m.read_ctrl_hdr addr = .ok h → h.type_ = VIRTIO_GPU_CMD_RESOURCE_CREATE_3D →
       m.read_resource_create_3d addr = .error e →
       VirtioGpuCommand.decode m addr = .error (.ParserError e))
  ∧ (∀ (m : GuestMem) (addr : Nat) (h : virtio_gpu_ctrl_hdr) (p : virtio_gpu_transfer_host_3d),
       m.read_ctrl_hdr addr = .ok h → h.type_ = VIRTIO_GPU_CMD_TRANSFER_TO_HOST_3D →
       m.read_transfer_host_3d addr = .ok p →
       VirtioGpuCommand.decode m addr = .ok (.CmdTransferToHost3D p))
  ∧ (∀ (m : GuestMem) (addr : Nat) (h : virtio_gpu_ctrl_hdr) (e : GuestMemoryError),
       m.read_ctrl_hdr addr = .ok h → h.type_ = VIRTIO_GPU_CMD_TRANSFER_TO_HOST_3D →
       m.read_transfer_host_3d addr = .error e →
       VirtioGpuCommand.decode m addr = .error (.ParserError e))
  ∧ (∀ (m : GuestMem) (addr : Nat) (h : virtio_gpu_ctrl_hdr) (p : virtio_gpu_transfer_host_3d),
       m.read_ctrl_hdr addr = .ok h → h.type_ = VIRTIO_GPU_CMD_TRANSFER_FROM_HOST_3D →
       m.read_transfer_host_3d addr = .ok p →
       VirtioGpuCommand.decode m addr = .ok (.CmdTransferFromHost3D p))
  ∧ (∀ (m : GuestMem) (addr : Nat) (h : virtio_gpu_ctrl_hdr) (e : GuestMemoryError),
       m.read_ctrl_hdr addr = .ok h → h.type_ = VIRTIO_GPU_CMD_TRANSFER_FROM_HOST_3D →
       m.read_transfer_host_3d addr = .error e →
       VirtioGpuCommand.decode m addr = .error (.ParserError e))
  ∧ (∀ (m : GuestMem) (addr : Nat) (h : virtio_gpu_ctrl_hdr) (p : virtio_gpu_cmd_submit),
       m.read_ctrl_hdr addr = .ok h → h.type_ = VIRTIO_GPU_CMD_SUBMIT_3D →
       m.read_cmd_submit addr = .ok p →
       VirtioGpuCommand.decode m addr = .ok (.CmdSubmit3D p))
  ∧ (∀ (m : GuestMem) (addr : Nat) (h : virtio_gpu_ctrl_hdr) (e : GuestMemoryError),
       m.read_ctrl_hdr addr = .ok h → h.type_ = VIRTIO_GPU_CMD_SUBMIT_3D →
       m.read_cmd_submit addr = .error e →
       VirtioGpuCommand.decode m addr = .error (.ParserError e))
  ∧ (∀ (m : GuestMem) (addr : Nat) (h : virtio_gpu_ctrl_hdr) (p : virtio_gpu_update_cursor),
       m.read_ctrl_hdr addr = .ok h → h.type_ = VIRTIO_GPU_CMD_UPDATE_CURSOR →
       m.read_update_cursor addr = .ok p →
       VirtioGpuCommand.decode m addr = .ok (.CmdUpdateCursor p))
  ∧ (∀ (m : GuestMem) (addr : Nat) (h : virtio_gpu_ctrl_hdr) (e : GuestMemoryError),
       m.read_ctrl_hdr addr = .ok h → h.type_ = VIRTIO_GPU_CMD_UPDATE_CURSOR →
       m.read_update_cursor addr = .error e →
       VirtioGpuCommand.decode m addr = .error (.ParserError e))
  ∧ (∀ (m : GuestMem) (addr : Nat) (h : virtio_gpu_ctrl_hdr) (p : virtio_gpu_update_cursor),
       m.read_ctrl_hdr addr = .ok h → h.type_ = VIRTIO_GPU_CMD_MOVE_CURSOR →
       m.read_update_cursor addr = .ok p →
       VirtioGpuCommand.decode m addr = .ok (.CmdMoveCursor p))
  ∧ (∀ (m : GuestMem) (addr : Nat) (h : virtio_gpu_ctrl_hdr) (e : GuestMemoryError),
       m.read_ctrl_hdr addr = .ok h → h.type_ = VIRTIO_GPU_CMD_MOVE_CURSOR →
       m.read_update_cursor addr = .error e →
       VirtioGpuCommand.decode m addr = .error (.ParserError e)) := by
  refine ⟨?_, ?_, ?_, ?_, ?_, ?_, ?_, ?_, ?_, ?_, ?_, ?_, ?_, ?_, ?_, ?_, ?_, ?_, ?_, ?_, ?_, ?_, ?_, ?_, ?_, ?_, ?_, ?_, ?_, ?_, ?_, ?_, ?_, ?_, ?_, ?_, ?_, ?_, ?_, ?_, ?_, ?_, ?_⟩
  · intro m addr e h
    simp [VirtioGpuCommand.decode, h]
  · intro m addr h h1 hk m2 hm
    exact decode_unknown m2 addr h (by rw [hm]; exact h1) hk
  all_goals
    intros
    simp_all [VirtioGpuCommand.decode, wrapRead, VIRTIO_GPU_CMD_GET_DISPLAY_INFO, VIRTIO_GPU_CMD_RESOURCE_CREATE_2D, VIRTIO_GPU_CMD_RESOURCE_UNREF, VIRTIO_GPU_CMD_TRANSFER_TO_HOST_2D, VIRTIO_GPU_CMD_SET_SCANOUT, VIRTIO_GPU_CMD_RESOURCE_FLUSH, VIRTIO_GPU_CMD_RESOURCE_ATTACH_BACKING, VIRTIO_GPU_CMD_RESOURCE_DETACH_BACKING, VIRTIO_GPU_CMD_GET_CAPSET_INFO, VIRTIO_GPU_CMD_GET_CAPSET, VIRTIO_GPU_CMD_GET_EDID, VIRTIO_GPU_CMD_CTX_CREATE, VIRTIO_GPU_CMD_CTX_DESTROY, VIRTIO_GPU_CMD_CTX_ATTACH_RESOURCE, VIRTIO_GPU_CMD_CTX_DETACH_RESOURCE, VIRTIO_GPU_CMD_RESOURCE_CREATE_3D, VIRTIO_GPU_CMD_TRANSFER_TO_HOST_3D, VIRTIO_GPU_CMD_TRANSFER_FROM_HOST_3D, VIRTIO_GPU_CMD_SUBMIT_3D, VIRTIO_GPU_CMD_UPDATE_CURSOR, VIRTIO_GPU_CMD_MOVE_CURSOR]

/-- A guest memory oracle whose every typed read faults with error
code 1. -/
def memFault : GuestMem :=
  { read_ctrl_hdr := fun _ => .error ⟨1⟩,
    read_resource_create_2d := fun _ => .error ⟨1⟩,
    read_resource_unref := fun _ => .error ⟨1⟩,
    read_transfer_to_host_2d := fun _ => .error ⟨1⟩,
    read_set_scanout := fun _ => .error ⟨1⟩,
    read_resource_flush := fun _ => .error ⟨1⟩,
    read_attach_backing := fun _ => .error ⟨1⟩,
    read_detach_backing := fun _ => .error ⟨1⟩,
    read_get_capset_info := fun _ => .error ⟨1⟩,
    read_get_capset := fun _ => .error ⟨1⟩,
    read_get_edid := fun _ => .error ⟨1⟩,
    read_ctx_create := fun _ => .error ⟨1⟩,
    read_ctx_destroy := fun _ => .error ⟨1⟩,
    read_ctx_resource := fun _ => .error ⟨1⟩,
    read_resource_create_3d := fun _ => .error ⟨1⟩,
    read_transfer_host_3d := fun _ => .error ⟨1⟩,
    read_cmd_submit := fun _ => .error ⟨1⟩,
    read_update_cursor := fun _ => .error ⟨1⟩ }

/-- A header carrying the unrecognised opcode 0x0999. -/
def hdrUnknown : virtio_gpu_ctrl_hdr :=
  { type_ := 0x0999, flags := 0, fence_id := 0, ctx_id := 0, padding := 0 }

/-- Memory whose header read yields the unknown opcode 0x0999 and
whose payload reads all fault. -/
def memUnknown : GuestMem :=
  { memFault with read_ctrl_hdr := fun _ => .ok hdrUnknown }

/-- A header carrying the create-2D opcode. -/
def hdrCreate2d : virtio_gpu_ctrl_hdr :=
  { type_ := 0x0101, flags := 0, fence_id := 0, ctx_id := 0, padding := 0 }

/-- The create-2D payload stored behind `hdrCreate2d`. -/
def c2dPayload : virtio_gpu_resource_create_2d :=
  { hdr := hdrCreate2d, resource_id := 5, format := 1, width := 8, height := 8 }

/-- Memory holding a valid create-2D command. -/
def memCreate2d : GuestMem :=
  { memFault with
      read_ctrl_hdr := fun _ => .ok hdrCreate2d,
      read_resource_create_2d := fun _ => .ok c2dPayload }

/-- C7 witness: a faulting header read, an unknown opcode, and a valid
create-2D command decode as the dispatch theorem states. -/
theorem c7_decode_dispatch_witness :
    VirtioGpuCommand.decode memFault 0 = .error (.ParserError ⟨1⟩)
  ∧ VirtioGpuCommand.decode memUnknown 0 = .error (.InvalidCommand 0x0999)
  ∧ VirtioGpuCommand.decode memCreate2d 0 = .ok (.CmdResourceCreate2D c2dPayload) :=
  ⟨c7_decode_dispatch.1 memFault 0 ⟨1⟩ rfl,
   c7_decode_dispatch.2.1 memUnknown 0 hdrUnknown rfl (by decide) memUnknown rfl,
   c7_decode_dispatch.2.2.2.1 memCreate2d 0 hdrCreate2d c2dPayload rfl rfl rfl⟩

end VhostGpu
